import Mathlib

/-!
Verification of the eppi replay scanner / rank-lookup pipeline.

Shallow embedding of the Rust sources:
  - src/peppi.rs : ReplayAnalyzer (scan_directory, get_stats_for_player,
    lookup_opponent_rank, get_cached_rank), parse-side helpers
    (extract_game_duration), and its own elo_to_rank.
  - src/web.rs   : elo_to_rank with daily-placement Grandmaster overlay.
  - src/app.rs   : Eppi::lookup_opponent_rank (cached path) and the
    rank-result drain inside Eppi::update.

Machine integers are modelled as Int (i32 values in elo_to_rank stay far
from the i32 range edges on every input considered here; placements use
the explicit i32::MAX sentinel as in the source).  The filesystem walk is
modelled as the list of items the walkdir iterator yields, each either a
walk error or a directory entry.  The network is an oracle from a connect
code to a fetch outcome, and each lookup function additionally returns
the list of network requests it issued.
-/

namespace Eppi

/-- Player port slots, from peppi::game::Port. -/
inductive Port where
  | P1
  | P2
  | P3
  | P4
deriving DecidableEq, Repr

/-- PlayerInfo from src/peppi.rs. -/
structure PlayerInfo where
  name : String
  character : Option Nat
  port : Port
  team : Option Nat
deriving DecidableEq, Repr

/-- GameResult from src/peppi.rs. -/
inductive GameResult where
  | Player1Won
  | Player2Won
  | Unknown
deriving DecidableEq, Repr

/-- ReplayInfo from src/peppi.rs.  Dates (file modification times) are
modelled as abstract Nat timestamps. -/
structure ReplayInfo where
  file_path : String
  player1 : PlayerInfo
  player2 : PlayerInfo
  result : GameResult
  stage : Option Nat
  stage_name : String
  duration : Option Int
  date : Option Nat
  opponent_rank : Option String
deriving DecidableEq, Repr

/-- ReplayAnalyzer state from src/peppi.rs.  The HashMap rank cache is
modelled as an association list (see cacheGet / cacheInsert below). -/
structure ReplayAnalyzer where
  replays : List ReplayInfo
  rank_cache : List (String × String)
deriving DecidableEq, Repr

/-- Lookup in the modelled rank cache (HashMap::get). -/
def cacheGet (c : List (String × String)) (k : String) : Option String :=
  (c.find? (fun p => p.1 = k)).map (fun p => p.2)

/-- Membership test in the modelled rank cache (HashMap::contains_key). -/
def cacheContains (c : List (String × String)) (k : String) : Bool :=
  (c.find? (fun p => p.1 = k)).isSome

/-- Insertion into the modelled rank cache (HashMap::insert, overwriting
any previous binding for the key). -/
def cacheInsert (c : List (String × String)) (k v : String) :
    List (String × String) :=
  (k, v) :: c.filter (fun p => p.1 ≠ k)

/-- The i32::MAX sentinel used by web.rs for an absent daily placement. -/
def i32Max : Int := 2147483647

/-- elo_to_rank from src/peppi.rs lines 304-326: an ordered match on i32
range patterns 0..=765, 766..=913, ..., 2351..=2999, with a catch-all
arm returning "Grandmaster" (which is reached both for ratings of 3000
and above and for negative ratings). -/
def elo_to_rank_peppi (elo : Int) : String :=
  if 0 ≤ elo ∧ elo ≤ 765 then "Bronze 1"
  else if 766 ≤ elo ∧ elo ≤ 913 then "Bronze 2"
  else if 914 ≤ elo ∧ elo ≤ 1054 then "Bronze 3"
  else if 1055 ≤ elo ∧ elo ≤ 1188 then "Silver 1"
  else if 1189 ≤ elo ∧ elo ≤ 1315 then "Silver 2"
  else if 1316 ≤ elo ∧ elo ≤ 1436 then "Silver 3"
  else if 1437 ≤ elo ∧ elo ≤ 1546 then "Gold 1"
  else if 1547 ≤ elo ∧ elo ≤ 1654 then "Gold 2"
  else if 1655 ≤ elo ∧ elo ≤ 1751 then "Gold 3"
  else if 1752 ≤ elo ∧ elo ≤ 1842 then "Platinum 1"
  else if 1843 ≤ elo ∧ elo ≤ 1927 then "Platinum 2"
  else if 1928 ≤ elo ∧ elo ≤ 2003 then "Platinum 3"
  else if 2004 ≤ elo ∧ elo ≤ 2074 then "Diamond 1"
  else if 2075 ≤ elo ∧ elo ≤ 2136 then "Diamond 2"
  else if 2137 ≤ elo ∧ elo ≤ 2191 then "Diamond 3"
  else if 2192 ≤ elo ∧ elo ≤ 2274 then "Master 1"
  else if 2275 ≤ elo ∧ elo ≤ 2350 then "Master 2"
  else if 2351 ≤ elo ∧ elo ≤ 2999 then "Master 3"
  else "Grandmaster"

/-- elo_to_rank from src/web.rs lines 106-131: an ordered guard chain of
strict upper bounds, with the Grandmaster overlay arm placed between the
Diamond 3 and Master 1 arms, and an unreachable final "Unranked" arm. -/
def elo_to_rank_web (rating regional_placement global_placement : Int) :
    String :=
  if rating < 766 then "Bronze 1"
  else if rating < 914 then "Bronze 2"
  else if rating < 1055 then "Bronze 3"
  else if rating < 1189 then "Silver 1"
  else if rating < 1316 then "Silver 2"
  else if rating < 1436 then "Silver 3"
  else if rating < 1549 then "Gold 1"
  else if rating < 1654 then "Gold 2"
  else if rating < 1752 then "Gold 3"
  else if rating < 1843 then "Platinum 1"
  else if rating < 1928 then "Platinum 2"
  else if rating < 2004 then "Platinum 3"
  else if rating < 2074 then "Diamond 1"
  else if rating < 2137 then "Diamond 2"
  else if rating < 2192 then "Diamond 3"
  else if 2192 ≤ rating ∧ (regional_placement ≤ 100 ∨ global_placement ≤ 300)
    then "Grandmaster"
  else if rating < 2275 then "Master 1"
  else if rating < 2350 then "Master 2"
  else if 2350 ≤ rating then "Master 3"
  else "Unranked"

/-- The tier table exactly as the claim states it: the Grandmaster overlay
for rating at or above 2192 with a qualifying daily placement, otherwise
contiguous bands whose inclusive upper breakpoints are
765/913/1054/1188/1315/1436/1546/1654/1751/1842/1927/2003/2074/2136/2191/2274/2350. -/
def claimTierLabel (rating regional_placement global_placement : Int) :
    String :=
  if 2192 ≤ rating ∧ (regional_placement ≤ 100 ∨ global_placement ≤ 300)
    then "Grandmaster"
  else if rating ≤ 765 then "Bronze 1"
  else if rating ≤ 913 then "Bronze 2"
  else if rating ≤ 1054 then "Bronze 3"
  else if rating ≤ 1188 then "Silver 1"
  else if rating ≤ 1315 then "Silver 2"
  else if rating ≤ 1436 then "Silver 3"
  else if rating ≤ 1546 then "Gold 1"
  else if rating ≤ 1654 then "Gold 2"
  else if rating ≤ 1751 then "Gold 3"
  else if rating ≤ 1842 then "Platinum 1"
  else if rating ≤ 1927 then "Platinum 2"
  else if rating ≤ 2003 then "Platinum 3"
  else if rating ≤ 2074 then "Diamond 1"
  else if rating ≤ 2136 then "Diamond 2"
  else if rating ≤ 2191 then "Diamond 3"
  else if rating ≤ 2274 then "Master 1"
  else if rating ≤ 2350 then "Master 2"
  else "Master 3"

/-- The tier table the web.rs code actually implements, written in the
claim's style: Grandmaster overlay first, then disjoint half-open bands
with the cutoffs 766/914/1055/1189/1316/1436/1549/1654/1752/1843/1928/
2004/2074/2137/2192/2275/2350 (so the bands below Master end at the
inclusive breakpoints 765/913/1054/1188/1315/1435/1548/1653/1751/1842/
1927/2003/2073/2136/2191, and Master 2 ends at 2349). -/
def amendedTierLabel (rating regional_placement global_placement : Int) :
    String :=
  if 2192 ≤ rating ∧ (regional_placement ≤ 100 ∨ global_placement ≤ 300)
    then "Grandmaster"
  else if rating < 766 then "Bronze 1"
  else if 766 ≤ rating ∧ rating < 914 then "Bronze 2"
  else if 914 ≤ rating ∧ rating < 1055 then "Bronze 3"
  else if 1055 ≤ rating ∧ rating < 1189 then "Silver 1"
  else if 1189 ≤ rating ∧ rating < 1316 then "Silver 2"
  else if 1316 ≤ rating ∧ rating < 1436 then "Silver 3"
  else if 1436 ≤ rating ∧ rating < 1549 then "Gold 1"
  else if 1549 ≤ rating ∧ rating < 1654 then "Gold 2"
  else if 1654 ≤ rating ∧ rating < 1752 then "Gold 3"
  else if 1752 ≤ rating ∧ rating < 1843 then "Platinum 1"
  else if 1843 ≤ rating ∧ rating < 1928 then "Platinum 2"
  else if 1928 ≤ rating ∧ rating < 2004 then "Platinum 3"
  else if 2004 ≤ rating ∧ rating < 2074 then "Diamond 1"
  else if 2074 ≤ rating ∧ rating < 2137 then "Diamond 2"
  else if 2137 ≤ rating ∧ rating < 2192 then "Diamond 3"
  else if 2192 ≤ rating ∧ rating < 2275 then "Master 1"
  else if 2275 ≤ rating ∧ rating < 2350 then "Master 2"
  else "Master 3"

/-- The fields parse_replay produces for one file besides the path itself
(src/peppi.rs lines 175-208).  The decoder and the filesystem metadata are
outside the embedding, so the outcome of parsing one file is taken as
given: some fields on success, none when parse_replay returns Err (a typed
parse error, an open failure, or insufficient player data). -/
structure ParsedReplay where
  player1 : PlayerInfo
  player2 : PlayerInfo
  result : GameResult
  stage : Nat
  stage_name : String
  duration : Option Int
  date : Option Nat
deriving DecidableEq, Repr

/-- The ReplayInfo that parse_replay assembles on success: the file path
is recorded, the stage wrapped in Some, and opponent_rank starts absent. -/
def mkReplayInfo (path : String) (c : ParsedReplay) : ReplayInfo :=
  { file_path := path
    player1 := c.player1
    player2 := c.player2
    result := c.result
    stage := some c.stage
    stage_name := c.stage_name
    duration := c.duration
    date := c.date
    opponent_rank := none }

/-- One directory entry the walkdir iterator yields: its path, whether it
is a regular file, its extension, and the outcome of parsing it. -/
structure FsEntry where
  path : String
  is_file : Bool
  ext : Option String
  parsed : Option ParsedReplay
deriving DecidableEq, Repr

/-- The item stream of WalkDir::new(dir).into_iter(): each item is either
a per-entry walk error or a directory entry.  A nonexistent root directory
yields a single error item. -/
abbrev DirWalk := List (Except String FsEntry)

/-- The candidate filter of scan_directory (src/peppi.rs lines 55-68):
walk errors are skipped and only regular files with extension slp pass. -/
def candidateEntries (w : DirWalk) : List FsEntry :=
  w.filterMap (fun item =>
    match item with
    | Except.error _ => none
    | Except.ok e =>
      if e.is_file ∧ e.ext = some "slp" then some e else none)

/-- The paths of the candidate files a scan considers. -/
def candidatePaths (w : DirWalk) : List String :=
  (candidateEntries w).map (fun e => e.path)

/-- The parse successes of the second filter_map of scan_directory
(src/peppi.rs lines 70-78), enumerated in walk order.  The code runs
this stage through rayon par_bridge, whose collect does NOT preserve
iterator order, so this list serves only as the reference multiset: a
real execution collects SOME permutation of it, and scanDirectory below
takes that collected list as an explicit input. -/
def parseSuccesses (w : DirWalk) : List ReplayInfo :=
  (candidateEntries w).filterMap (fun e => e.parsed.map (mkReplayInfo e.path))

/-- The date comparator of scan_directory (src/peppi.rs lines 82-89):
newer dates first, dated entries before dateless ones, dateless entries
mutually equal. -/
def dateCompare (a b : Option Nat) : Ordering :=
  match a, b with
  | some date_a, some date_b => compare date_b date_a
  | some _, none => Ordering.lt
  | none, some _ => Ordering.gt
  | none, none => Ordering.eq

/-- The non-strict order induced by the comparator, as used by sort_by:
a may stay before b exactly when the comparator does not say Greater. -/
def replayLE (a b : ReplayInfo) : Prop :=
  dateCompare a.date b.date ≠ Ordering.gt

instance : DecidableRel replayLE := fun a b => by
  unfold replayLE
  infer_instance

/-- The sort of scan_directory.  Rust Vec::sort_by is a stable sort, and a
stable sort by a total preorder comparator is a unique function of its
input list, so stable insertion sort is a faithful model of it. -/
def sortReplays (l : List ReplayInfo) : List ReplayInfo :=
  l.insertionSort replayLE

/-- scan_directory (src/peppi.rs lines 52-93): sort the collected parse
successes by date and replace self.replays.  The par_bridge parallel
stage delivers the successes in nondeterministic thread-completion
order, so the collected pre-sort list is an explicit input of the model;
an execution is admissible exactly when that list is a permutation of
parseSuccesses w, which the theorems impose as a hypothesis.  The body
has no early return and its only exit is Ok(()); the io::Result return
type is mirrored by Except. -/
def scanDirectory (s : ReplayAnalyzer) (w : DirWalk)
    (collected : List ReplayInfo) : Except String ReplayAnalyzer :=
  Except.ok { s with replays := sortReplays collected }

/-- The loop body of get_stats_for_player (src/peppi.rs lines 99-113):
player1 is compared first, then player2, and a replay matching neither
leaves the accumulator alone. -/
def statStep (player_tag : String) (acc : Nat × Nat) (replay : ReplayInfo) :
    Nat × Nat :=
  if replay.player1.name = player_tag then
    match replay.result with
    | GameResult.Player1Won => (acc.1 + 1, acc.2)
    | GameResult.Player2Won => (acc.1, acc.2 + 1)
    | GameResult.Unknown => acc
  else if replay.player2.name = player_tag then
    match replay.result with
    | GameResult.Player1Won => (acc.1, acc.2 + 1)
    | GameResult.Player2Won => (acc.1 + 1, acc.2)
    | GameResult.Unknown => acc
  else acc

/-- get_stats_for_player (src/peppi.rs lines 95-116): a fold over the
replay list with a wins/losses accumulator pair starting at (0, 0). -/
def getStatsForPlayer (s : ReplayAnalyzer) (player_tag : String) :
    Nat × Nat :=
  s.replays.foldl (statStep player_tag) (0, 0)

/-- Whether one replay counts as a win for the tag under the code's rules:
player1 is checked first, and only a replay naming the tag counts. -/
def winFor (tag : String) (r : ReplayInfo) : Bool :=
  if r.player1.name = tag then
    match r.result with
    | GameResult.Player1Won => true
    | _ => false
  else if r.player2.name = tag then
    match r.result with
    | GameResult.Player2Won => true
    | _ => false
  else false

/-- Whether one replay counts as a loss for the tag under the code's
rules, mirroring winFor. -/
def lossFor (tag : String) (r : ReplayInfo) : Bool :=
  if r.player1.name = tag then
    match r.result with
    | GameResult.Player2Won => true
    | _ => false
  else if r.player2.name = tag then
    match r.result with
    | GameResult.Player1Won => true
    | _ => false
  else false

/-- extract_game_duration (src/peppi.rs lines 328-336): take the LAST
element of the frame-index stream and return it when it is non-null;
otherwise (empty stream, or last element null) return nothing. -/
def extract_game_duration (ids : List (Option Int)) : Option Int :=
  match ids.getLast? with
  | some (some frame_id) => some frame_id
  | _ => none

/-- The value the spec phrase names: the last non-null value appearing
anywhere in the frame-index stream. -/
def specLastNonNull (ids : List (Option Int)) : Option Int :=
  (ids.filterMap id).getLast?

/-- The opponent derivation shared by src/peppi.rs lines 128-132 and
src/app.rs lines 141-145: the other player of the most recent replay
relative to the caller's own tag. -/
def opponentOf (mr : ReplayInfo) (player_tag : String) : String :=
  if mr.player1.name = player_tag then mr.player2.name else mr.player1.name

/-- lookup_opponent_rank (src/peppi.rs lines 118-162).  The network is an
oracle from connect code to fetch outcome; the returned list records the
network requests the call issued (the source always returns Ok(()), so
only the state and the requests are informative). -/
def lookupOpponentRank (s : ReplayAnalyzer) (player_tag : String)
    (net : String → Except String String) :
    ReplayAnalyzer × List String :=
  match s.replays with
  | [] => (s, [])
  | mr :: rest =>
    let opponent_tag := opponentOf mr player_tag
    if cacheContains s.rank_cache opponent_tag then (s, [])
    else if opponent_tag = "Unknown" then (s, [])
    else
      match net opponent_tag with
      | Except.ok rank =>
        ({ replays := { mr with opponent_rank := some rank } :: rest
           rank_cache := cacheInsert s.rank_cache opponent_tag rank },
         [opponent_tag])
      | Except.error _ =>
        ({ s with
           rank_cache := cacheInsert s.rank_cache opponent_tag "Unknown" },
         [opponent_tag])

/-- The slice of Eppi state (src/app.rs) that the rank-lookup claims
touch; the receiver option is reduced to whether one is pending. -/
structure EppiApp where
  connect_code : String
  analyzer : ReplayAnalyzer
  is_fetching_rank : Bool
  scan_status : String
  has_pending_receiver : Bool
deriving DecidableEq, Repr

/-- Eppi::lookup_opponent_rank (src/app.rs lines 131-183): on a cache hit
the cached rank is applied to the most recent replay and no task is
spawned; on a miss a fetch task for the opponent is spawned.  The request
list records the spawned fetches. -/
def appLookupOpponentRank (e : EppiApp) : EppiApp × List String :=
  if e.connect_code ≠ "" ∧ e.is_fetching_rank = false ∧
      e.analyzer.replays ≠ [] then
    match e.analyzer.replays with
    | [] => (e, [])
    | mr :: rest =>
      let opponent_tag := opponentOf mr e.connect_code
      match cacheGet e.analyzer.rank_cache opponent_tag with
      | some cached_rank =>
        ({ e with
           analyzer :=
             { e.analyzer with
               replays := { mr with opponent_rank := some cached_rank } :: rest }
           scan_status :=
             "Found cached rank for " ++ opponent_tag ++ ": " ++ cached_rank
           is_fetching_rank := false },
         [])
      | none =>
        ({ e with
           is_fetching_rank := true
           has_pending_receiver := true
           scan_status := "Looking up rank for " ++ opponent_tag ++ "..." },
         [opponent_tag])
  else (e, [])

/-- The rank-result drain at the top of Eppi::update (src/app.rs lines
266-292): a successful fetch is cached and applied to the most recent
replay, a failed fetch caches the "Unknown" sentinel; either way the
in-flight flag and the receiver are cleared. -/
def appApplyRankResult (e : EppiApp) (opponent_tag : String)
    (res : Except String String) : EppiApp :=
  match res with
  | Except.ok rank =>
    { e with
      analyzer :=
        { replays :=
            match e.analyzer.replays with
            | [] => e.analyzer.replays
            | r :: rs => { r with opponent_rank := some rank } :: rs
          rank_cache := cacheInsert e.analyzer.rank_cache opponent_tag rank }
      scan_status := "Found rank for " ++ opponent_tag ++ ": " ++ rank
      is_fetching_rank := false
      has_pending_receiver := false }
  | Except.error error_msg =>
    { e with
      analyzer :=
        { e.analyzer with
          rank_cache := cacheInsert e.analyzer.rank_cache opponent_tag "Unknown" }
      scan_status :=
        "Failed to lookup rank for " ++ opponent_tag ++ ": " ++ error_msg
      is_fetching_rank := false
      has_pending_receiver := false }

/-! Concrete data used by the per-claim examples, counterexamples and
witnesses. -/

/-- A concrete player record with tag X. -/
def playerX : PlayerInfo :=
  { name := "X", character := some 20, port := Port.P1, team := none }

/-- A concrete player record with tag Y. -/
def playerY : PlayerInfo :=
  { name := "Y", character := some 2, port := Port.P2, team := none }

/-- Parsed contents of a replay A dated t1 = 100. -/
def exParsedA : ParsedReplay :=
  { player1 := playerX, player2 := playerY, result := GameResult.Player1Won
    stage := 31, stage_name := "Battlefield", duration := some 6000
    date := some 100 }

/-- Parsed contents of a replay B with no date. -/
def exParsedB : ParsedReplay :=
  { player1 := playerX, player2 := playerY, result := GameResult.Player2Won
    stage := 32, stage_name := "Final Destination", duration := some 5000
    date := none }

/-- Parsed contents of a replay C dated t2 = 200 with t2 above t1. -/
def exParsedC : ParsedReplay :=
  { player1 := playerX, player2 := playerY, result := GameResult.Player1Won
    stage := 2, stage_name := "Fountain of Dreams", duration := some 4000
    date := some 200 }

/-- A walk yielding the files A, B, C in scan order. -/
def exWalkOrdering : DirWalk :=
  [Except.ok { path := "A.slp", is_file := true, ext := some "slp"
               parsed := some exParsedA },
   Except.ok { path := "B.slp", is_file := true, ext := some "slp"
               parsed := some exParsedB },
   Except.ok { path := "C.slp", is_file := true, ext := some "slp"
               parsed := some exParsedC }]

/-- Parsed contents of a second dateless replay, distinct from B. -/
def exParsedB2 : ParsedReplay :=
  { player1 := playerX, player2 := playerY, result := GameResult.Unknown
    stage := 28, stage_name := "Dream Land N64", duration := some 3000
    date := none }

/-- A walk yielding two dateless replay files D1 and D2, in that order. -/
def exWalkTwoDateless : DirWalk :=
  [Except.ok { path := "D1.slp", is_file := true, ext := some "slp"
               parsed := some exParsedB },
   Except.ok { path := "D2.slp", is_file := true, ext := some "slp"
               parsed := some exParsedB2 }]

/-- The directory entry of a corrupt (unparseable) replay file. -/
def exBadEntry : FsEntry :=
  { path := "bad.slp", is_file := true, ext := some "slp", parsed := none }

/-- A walk over a directory holding two parseable replays and one corrupt
one. -/
def exWalkCorrupt : DirWalk :=
  [Except.ok { path := "A.slp", is_file := true, ext := some "slp"
               parsed := some exParsedA },
   Except.ok exBadEntry,
   Except.ok { path := "C.slp", is_file := true, ext := some "slp"
               parsed := some exParsedC }]

/-- Three replays in which tag X is the player1-side winner twice and the
player2-side loser once. -/
def exStatsAnalyzer : ReplayAnalyzer :=
  { replays :=
      [{ file_path := "w1.slp", player1 := playerX, player2 := playerY
         result := GameResult.Player1Won, stage := some 31
         stage_name := "Battlefield", duration := some 6000
         date := some 300, opponent_rank := none },
       { file_path := "w2.slp", player1 := playerX, player2 := playerY
         result := GameResult.Player1Won, stage := some 32
         stage_name := "Final Destination", duration := some 5000
         date := some 200, opponent_rank := none },
       { file_path := "l1.slp", player1 := playerY, player2 := playerX
         result := GameResult.Player1Won, stage := some 2
         stage_name := "Fountain of Dreams", duration := some 4000
         date := some 100, opponent_rank := none }]
    rank_cache := [] }

/-- The most recent replay used by the rank-lookup examples: the caller
ME#1 against opponent OPP#2. -/
def exRecentReplay : ReplayInfo :=
  { file_path := "recent.slp"
    player1 := { name := "ME#1", character := some 20, port := Port.P1
                 team := none }
    player2 := { name := "OPP#2", character := some 2, port := Port.P2
                 team := none }
    result := GameResult.Player1Won, stage := some 31
    stage_name := "Battlefield", duration := some 6000, date := some 400
    opponent_rank := none }

/-- An analyzer whose rank cache already holds the opponent of the most
recent replay. -/
def exCachedAnalyzer : ReplayAnalyzer :=
  { replays := [exRecentReplay], rank_cache := [("OPP#2", "Gold 2")] }

/-- An analyzer with an empty rank cache, about to look up OPP#2. -/
def exUncachedAnalyzer : ReplayAnalyzer :=
  { replays := [exRecentReplay], rank_cache := [] }

/-- A network oracle that fails every request. -/
def exNetFail : String → Except String String :=
  fun _ => Except.error "connection refused"

/-- A network oracle that answers every request with Platinum 1. -/
def exNetOk : String → Except String String :=
  fun _ => Except.ok "Platinum 1"

/-- An app state over the cached analyzer, ready for a lookup. -/
def exCachedApp : EppiApp :=
  { connect_code := "ME#1", analyzer := exCachedAnalyzer
    is_fetching_rank := false, scan_status := "Ready"
    has_pending_receiver := false }

/-- A replay whose result could not be determined. -/
def exUnknownReplay : ReplayInfo :=
  { file_path := "u.slp", player1 := playerX, player2 := playerY
    result := GameResult.Unknown, stage := some 31
    stage_name := "Battlefield", duration := none, date := none
    opponent_rank := none }

/-! Helper lemmas about the sort order, the sort, and the stats fold. -/

instance : IsTotal ReplayInfo replayLE := ⟨by
  intro a b
  unfold replayLE dateCompare
  rcases a.date with _ | da <;> rcases b.date with _ | db <;>
    simp [Nat.compare_eq_gt] <;> omega⟩

instance : IsTrans ReplayInfo replayLE := ⟨by
  intro a b c hab hbc
  unfold replayLE dateCompare at hab hbc ⊢
  rcases ha : a.date with _ | da <;> rcases hb : b.date with _ | db <;>
      rcases hc : c.date with _ | dc <;>
    simp_all [Nat.compare_eq_gt] <;> omega⟩

/-- The result of the modelled sort is pairwise ordered by replayLE. -/
lemma sorted_sortReplays (l : List ReplayInfo) :
    List.Sorted replayLE (sortReplays l) :=
  List.sorted_insertionSort replayLE l

/-- What replayLE says about the dates of two ordered replays: a newer or
equal date on the left when both are dated, and no dated entry after a
dateless one. -/
lemma replayLE_dates {a b : ReplayInfo} (h : replayLE a b) :
    (∀ da db, a.date = some da → b.date = some db → db ≤ da) ∧
    (a.date = none → b.date = none) := by
  unfold replayLE dateCompare at h
  constructor
  · intro da db hda hdb
    rw [hda, hdb] at h
    simp only [Nat.compare_eq_gt, ne_eq] at h
    omega
  · intro hna
    rw [hna] at h
    rcases hb : b.date with _ | db
    · rfl
    · rw [hb] at h
      simp at h

/-- Two dateless replays are mutually replayLE. -/
lemma replayLE_of_dateless {a b : ReplayInfo} (ha : a.date = none)
    (hb : b.date = none) : replayLE a b := by
  unfold replayLE dateCompare
  rw [ha, hb]
  simp

/-- A dated replay is replayLE any dateless one. -/
lemma replayLE_dated_dateless {a b : ReplayInfo} {da : Nat}
    (ha : a.date = some da) (hb : b.date = none) : replayLE a b := by
  unfold replayLE dateCompare
  rw [ha, hb]
  simp

/-- A dateless replay is never replayLE a dated one. -/
lemma not_replayLE_dateless_dated {a b : ReplayInfo} {db : Nat}
    (ha : a.date = none) (hb : b.date = some db) : ¬ replayLE a b := by
  unfold replayLE dateCompare
  rw [ha, hb]
  simp

/-- Inserting a replay never disturbs which dateless replays appear in
which order: the dateless sublist gains the new element at the front when
it is dateless and is untouched otherwise. -/
lemma filter_dateless_orderedInsert (a : ReplayInfo)
    (s : List ReplayInfo) :
    (s.orderedInsert replayLE a).filter (fun r => r.date.isNone) =
      if a.date.isNone then
        a :: s.filter (fun r => r.date.isNone)
      else s.filter (fun r => r.date.isNone) := by
  induction s with
  | nil =>
    rcases h : a.date with _ | da <;>
      simp [List.orderedInsert, List.filter_cons, h]
  | cons b t ih =>
    rcases hA : a.date with _ | da <;> rcases hB : b.date with _ | db
    · rw [List.orderedInsert, if_pos (replayLE_of_dateless hA hB)]
      simp [List.filter_cons, hA, hB]
    · rw [List.orderedInsert, if_neg (not_replayLE_dateless_dated hA hB)]
      simp [List.filter_cons, hA, hB, ih]
    · rw [List.orderedInsert, if_pos (replayLE_dated_dateless hA hB)]
      simp [List.filter_cons, hA, hB]
    · by_cases hle : replayLE a b
      · rw [List.orderedInsert, if_pos hle]
        simp [List.filter_cons, hA, hB]
      · rw [List.orderedInsert, if_neg hle]
        simp [List.filter_cons, hA, hB, ih]

/-- The sort keeps exactly the dateless replays of its input, in their
original relative order. -/
lemma filter_dateless_sortReplays (l : List ReplayInfo) :
    (sortReplays l).filter (fun r => r.date.isNone) =
      l.filter (fun r => r.date.isNone) := by
  induction l with
  | nil => rfl
  | cons a t ih =>
    rw [sortReplays, List.insertionSort, filter_dateless_orderedInsert]
    rw [List.filter_cons]
    unfold sortReplays at ih
    rw [ih]

/-- The stats fold counts exactly the replays satisfying winFor in the
first component and those satisfying lossFor in the second, on top of any
starting accumulator. -/
lemma statStep_foldl (player_tag : String) (l : List ReplayInfo) :
    ∀ a : Nat × Nat,
      l.foldl (statStep player_tag) a =
        (a.1 + l.countP (winFor player_tag),
         a.2 + l.countP (lossFor player_tag)) := by
  induction l with
  | nil => intro a; simp
  | cons r t ih =>
    intro a
    rw [List.foldl_cons, ih, List.countP_cons, List.countP_cons]
    by_cases h1 : r.player1.name = player_tag
    · cases hres : r.result <;>
        simp [statStep, winFor, lossFor, h1, hres] <;> omega
    · by_cases h2 : r.player2.name = player_tag
      · cases hres : r.result <;>
          simp [statStep, winFor, lossFor, h1, h2, hres] <;> omega
      · simp [statStep, winFor, lossFor, h1, h2]

/-- Reading back the key just written into the cache yields the value
just written, as with HashMap::insert then HashMap::get. -/
lemma cacheGet_insert_self (c : List (String × String)) (k v : String) :
    cacheGet (cacheInsert c k v) k = some v := by
  simp [cacheGet, cacheInsert, List.find?]

/-- A key just written into the cache is contained in it. -/
lemma cacheContains_insert_self (c : List (String × String))
    (k v : String) : cacheContains (cacheInsert c k v) k = true := by
  simp [cacheContains, cacheInsert, List.find?]

/-- A key with a cached value is contained in the cache. -/
lemma cacheContains_of_get {c : List (String × String)} {k v : String}
    (h : cacheGet c k = some v) : cacheContains c k = true := by
  unfold cacheGet at h
  unfold cacheContains
  rcases hf : c.find? (fun p => p.1 = k) with _ | p
  · rw [hf] at h
    simp at h
  · rw [hf]
    rfl

/-! Band-evaluation lemmas for the three tier tables, used to settle the
tier-mapping claims without exponential case splitting. -/

/-- Evaluation of the web.rs tier function on its lowest band. -/
lemma web_eval_0 (r rp gp : Int) (h2 : r < 766) :
    elo_to_rank_web r rp gp = "Bronze 1" := by
  unfold elo_to_rank_web
  rw [if_pos h2]

/-- Evaluation of the web.rs tier function on its band 1. -/
lemma web_eval_1 (r rp gp : Int) (h1 : 766 ≤ r) (h2 : r < 914) :
    elo_to_rank_web r rp gp = "Bronze 2" := by
  unfold elo_to_rank_web
  rw [if_neg (by omega : ¬ r < (766 : Int))]
  rw [if_pos h2]

/-- Evaluation of the web.rs tier function on its band 2. -/
lemma web_eval_2 (r rp gp : Int) (h1 : 914 ≤ r) (h2 : r < 1055) :
    elo_to_rank_web r rp gp = "Bronze 3" := by
  unfold elo_to_rank_web
  rw [if_neg (by omega : ¬ r < (766 : Int))]
  rw [if_neg (by omega : ¬ r < (914 : Int))]
  rw [if_pos h2]

/-- Evaluation of the web.rs tier function on its band 3. -/
lemma web_eval_3 (r rp gp : Int) (h1 : 1055 ≤ r) (h2 : r < 1189) :
    elo_to_rank_web r rp gp = "Silver 1" := by
  unfold elo_to_rank_web
  rw [if_neg (by omega : ¬ r < (766 : Int))]
  rw [if_neg (by omega : ¬ r < (914 : Int))]
  rw [if_neg (by omega : ¬ r < (1055 : Int))]
  rw [if_pos h2]

/-- Evaluation of the web.rs tier function on its band 4. -/
lemma web_eval_4 (r rp gp : Int) (h1 : 1189 ≤ r) (h2 : r < 1316) :
    elo_to_rank_web r rp gp = "Silver 2" := by
  unfold elo_to_rank_web
  rw [if_neg (by omega : ¬ r < (766 : Int))]
  rw [if_neg (by omega : ¬ r < (914 : Int))]
  rw [if_neg (by omega : ¬ r < (1055 : Int))]
  rw [if_neg (by omega : ¬ r < (1189 : Int))]
  rw [if_pos h2]

/-- Evaluation of the web.rs tier function on its band 5. -/
lemma web_eval_5 (r rp gp : Int) (h1 : 1316 ≤ r) (h2 : r < 1436) :
    elo_to_rank_web r rp gp = "Silver 3" := by
  unfold elo_to_rank_web
  rw [if_neg (by omega : ¬ r < (766 : Int))]
  rw [if_neg (by omega : ¬ r < (914 : Int))]
  rw [if_neg (by omega : ¬ r < (1055 : Int))]
  rw [if_neg (by omega : ¬ r < (1189 : Int))]
  rw [if_neg (by omega : ¬ r < (1316 : Int))]
  rw [if_pos h2]

/-- Evaluation of the web.rs tier function on its band 6. -/
lemma web_eval_6 (r rp gp : Int) (h1 : 1436 ≤ r) (h2 : r < 1549) :
    elo_to_rank_web r rp gp = "Gold 1" := by
  unfold elo_to_rank_web
  rw [if_neg (by omega : ¬ r < (766 : Int))]
  rw [if_neg (by omega : ¬ r < (914 : Int))]
  rw [if_neg (by omega : ¬ r < (1055 : Int))]
  rw [if_neg (by omega : ¬ r < (1189 : Int))]
  rw [if_neg (by omega : ¬ r < (1316 : Int))]
  rw [if_neg (by omega : ¬ r < (1436 : Int))]
  rw [if_pos h2]

/-- Evaluation of the web.rs tier function on its band 7. -/
lemma web_eval_7 (r rp gp : Int) (h1 : 1549 ≤ r) (h2 : r < 1654) :
    elo_to_rank_web r rp gp = "Gold 2" := by
  unfold elo_to_rank_web
  rw [if_neg (by omega : ¬ r < (766 : Int))]
  rw [if_neg (by omega : ¬ r < (914 : Int))]
  rw [if_neg (by omega : ¬ r < (1055 : Int))]
  rw [if_neg (by omega : ¬ r < (1189 : Int))]
  rw [if_neg (by omega : ¬ r < (1316 : Int))]
  rw [if_neg (by omega : ¬ r < (1436 : Int))]
  rw [if_neg (by omega : ¬ r < (1549 : Int))]
  rw [if_pos h2]

/-- Evaluation of the web.rs tier function on its band 8. -/
lemma web_eval_8 (r rp gp : Int) (h1 : 1654 ≤ r) (h2 : r < 1752) :
    elo_to_rank_web r rp gp = "Gold 3" := by
  unfold elo_to_rank_web
  rw [if_neg (by omega : ¬ r < (766 : Int))]
  rw [if_neg (by omega : ¬ r < (914 : Int))]
  rw [if_neg (by omega : ¬ r < (1055 : Int))]
  rw [if_neg (by omega : ¬ r < (1189 : Int))]
  rw [if_neg (by omega : ¬ r < (1316 : Int))]
  rw [if_neg (by omega : ¬ r < (1436 : Int))]
  rw [if_neg (by omega : ¬ r < (1549 : Int))]
  rw [if_neg (by omega : ¬ r < (1654 : Int))]
  rw [if_pos h2]

/-- Evaluation of the web.rs tier function on its band 9. -/
lemma web_eval_9 (r rp gp : Int) (h1 : 1752 ≤ r) (h2 : r < 1843) :
    elo_to_rank_web r rp gp = "Platinum 1" := by
  unfold elo_to_rank_web
  rw [if_neg (by omega : ¬ r < (766 : Int))]
  rw [if_neg (by omega : ¬ r < (914 : Int))]
  rw [if_neg (by omega : ¬ r < (1055 : Int))]
  rw [if_neg (by omega : ¬ r < (1189 : Int))]
  rw [if_neg (by omega : ¬ r < (1316 : Int))]
  rw [if_neg (by omega : ¬ r < (1436 : Int))]
  rw [if_neg (by omega : ¬ r < (1549 : Int))]
  rw [if_neg (by omega : ¬ r < (1654 : Int))]
  rw [if_neg (by omega : ¬ r < (1752 : Int))]
  rw [if_pos h2]

/-- Evaluation of the web.rs tier function on its band 10. -/
lemma web_eval_10 (r rp gp : Int) (h1 : 1843 ≤ r) (h2 : r < 1928) :
    elo_to_rank_web r rp gp = "Platinum 2" := by
  unfold elo_to_rank_web
  rw [if_neg (by omega : ¬ r < (766 : Int))]
  rw [if_neg (by omega : ¬ r < (914 : Int))]
  rw [if_neg (by omega : ¬ r < (1055 : Int))]
  rw [if_neg (by omega : ¬ r < (1189 : Int))]
  rw [if_neg (by omega : ¬ r < (1316 : Int))]
  rw [if_neg (by omega : ¬ r < (1436 : Int))]
  rw [if_neg (by omega : ¬ r < (1549 : Int))]
  rw [if_neg (by omega : ¬ r < (1654 : Int))]
  rw [if_neg (by omega : ¬ r < (1752 : Int))]
  rw [if_neg (by omega : ¬ r < (1843 : Int))]
  rw [if_pos h2]

/-- Evaluation of the web.rs tier function on its band 11. -/
lemma web_eval_11 (r rp gp : Int) (h1 : 1928 ≤ r) (h2 : r < 2004) :
    elo_to_rank_web r rp gp = "Platinum 3" := by
  unfold elo_to_rank_web
  rw [if_neg (by omega : ¬ r < (766 : Int))]
  rw [if_neg (by omega : ¬ r < (914 : Int))]
  rw [if_neg (by omega : ¬ r < (1055 : Int))]
  rw [if_neg (by omega : ¬ r < (1189 : Int))]
  rw [if_neg (by omega : ¬ r < (1316 : Int))]
  rw [if_neg (by omega : ¬ r < (1436 : Int))]
  rw [if_neg (by omega : ¬ r < (1549 : Int))]
  rw [if_neg (by omega : ¬ r < (1654 : Int))]
  rw [if_neg (by omega : ¬ r < (1752 : Int))]
  rw [if_neg (by omega : ¬ r < (1843 : Int))]
  rw [if_neg (by omega : ¬ r < (1928 : Int))]
  rw [if_pos h2]

/-- Evaluation of the web.rs tier function on its band 12. -/
lemma web_eval_12 (r rp gp : Int) (h1 : 2004 ≤ r) (h2 : r < 2074) :
    elo_to_rank_web r rp gp = "Diamond 1" := by
  unfold elo_to_rank_web
  rw [if_neg (by omega : ¬ r < (766 : Int))]
  rw [if_neg (by omega : ¬ r < (914 : Int))]
  rw [if_neg (by omega : ¬ r < (1055 : Int))]
  rw [if_neg (by omega : ¬ r < (1189 : Int))]
  rw [if_neg (by omega : ¬ r < (1316 : Int))]
  rw [if_neg (by omega : ¬ r < (1436 : Int))]
  rw [if_neg (by omega : ¬ r < (1549 : Int))]
  rw [if_neg (by omega : ¬ r < (1654 : Int))]
  rw [if_neg (by omega : ¬ r < (1752 : Int))]
  rw [if_neg (by omega : ¬ r < (1843 : Int))]
  rw [if_neg (by omega : ¬ r < (1928 : Int))]
  rw [if_neg (by omega : ¬ r < (2004 : Int))]
  rw [if_pos h2]

/-- Evaluation of the web.rs tier function on its band 13. -/
lemma web_eval_13 (r rp gp : Int) (h1 : 2074 ≤ r) (h2 : r < 2137) :
    elo_to_rank_web r rp gp = "Diamond 2" := by
  unfold elo_to_rank_web
  rw [if_neg (by omega : ¬ r < (766 : Int))]
  rw [if_neg (by omega : ¬ r < (914 : Int))]
  rw [if_neg (by omega : ¬ r < (1055 : Int))]
  rw [if_neg (by omega : ¬ r < (1189 : Int))]
  rw [if_neg (by omega : ¬ r < (1316 : Int))]
  rw [if_neg (by omega : ¬ r < (1436 : Int))]
  rw [if_neg (by omega : ¬ r < (1549 : Int))]
  rw [if_neg (by omega : ¬ r < (1654 : Int))]
  rw [if_neg (by omega : ¬ r < (1752 : Int))]
  rw [if_neg (by omega : ¬ r < (1843 : Int))]
  rw [if_neg (by omega : ¬ r < (1928 : Int))]
  rw [if_neg (by omega : ¬ r < (2004 : Int))]
  rw [if_neg (by omega : ¬ r < (2074 : Int))]
  rw [if_pos h2]

/-- Evaluation of the web.rs tier function on its band 14. -/
lemma web_eval_14 (r rp gp : Int) (h1 : 2137 ≤ r) (h2 : r < 2192) :
    elo_to_rank_web r rp gp = "Diamond 3" := by
  unfold elo_to_rank_web
  rw [if_neg (by omega : ¬ r < (766 : Int))]
  rw [if_neg (by omega : ¬ r < (914 : Int))]
  rw [if_neg (by omega : ¬ r < (1055 : Int))]
  rw [if_neg (by omega : ¬ r < (1189 : Int))]
  rw [if_neg (by omega : ¬ r < (1316 : Int))]
  rw [if_neg (by omega : ¬ r < (1436 : Int))]
  rw [if_neg (by omega : ¬ r < (1549 : Int))]
  rw [if_neg (by omega : ¬ r < (1654 : Int))]
  rw [if_neg (by omega : ¬ r < (1752 : Int))]
  rw [if_neg (by omega : ¬ r < (1843 : Int))]
  rw [if_neg (by omega : ¬ r < (1928 : Int))]
  rw [if_neg (by omega : ¬ r < (2004 : Int))]
  rw [if_neg (by omega : ¬ r < (2074 : Int))]
  rw [if_neg (by omega : ¬ r < (2137 : Int))]
  rw [if_pos h2]

/-- Evaluation of the web.rs tier function on its Grandmaster overlay arm. -/
lemma web_eval_gm (r rp gp : Int) (h1 : 2192 ≤ r)
    (hp : rp ≤ 100 ∨ gp ≤ 300) :
    elo_to_rank_web r rp gp = "Grandmaster" := by
  unfold elo_to_rank_web
  rw [if_neg (by omega : ¬ r < (766 : Int))]
  rw [if_neg (by omega : ¬ r < (914 : Int))]
  rw [if_neg (by omega : ¬ r < (1055 : Int))]
  rw [if_neg (by omega : ¬ r < (1189 : Int))]
  rw [if_neg (by omega : ¬ r < (1316 : Int))]
  rw [if_neg (by omega : ¬ r < (1436 : Int))]
  rw [if_neg (by omega : ¬ r < (1549 : Int))]
  rw [if_neg (by omega : ¬ r < (1654 : Int))]
  rw [if_neg (by omega : ¬ r < (1752 : Int))]
  rw [if_neg (by omega : ¬ r < (1843 : Int))]
  rw [if_neg (by omega : ¬ r < (1928 : Int))]
  rw [if_neg (by omega : ¬ r < (2004 : Int))]
  rw [if_neg (by omega : ¬ r < (2074 : Int))]
  rw [if_neg (by omega : ¬ r < (2137 : Int))]
  rw [if_neg (by omega : ¬ r < (2192 : Int))]
  rw [if_pos ⟨h1, hp⟩]

/-- Evaluation of the web.rs tier function on its Master 1 arm. -/
lemma web_eval_m1 (r rp gp : Int) (h1 : 2192 ≤ r) (h2 : r < 2275)
    (hp : ¬(rp ≤ 100 ∨ gp ≤ 300)) :
    elo_to_rank_web r rp gp = "Master 1" := by
  unfold elo_to_rank_web
  rw [if_neg (by omega : ¬ r < (766 : Int))]
  rw [if_neg (by omega : ¬ r < (914 : Int))]
  rw [if_neg (by omega : ¬ r < (1055 : Int))]
  rw [if_neg (by omega : ¬ r < (1189 : Int))]
  rw [if_neg (by omega : ¬ r < (1316 : Int))]
  rw [if_neg (by omega : ¬ r < (1436 : Int))]
  rw [if_neg (by omega : ¬ r < (1549 : Int))]
  rw [if_neg (by omega : ¬ r < (1654 : Int))]
  rw [if_neg (by omega : ¬ r < (1752 : Int))]
  rw [if_neg (by omega : ¬ r < (1843 : Int))]
  rw [if_neg (by omega : ¬ r < (1928 : Int))]
  rw [if_neg (by omega : ¬ r < (2004 : Int))]
  rw [if_neg (by omega : ¬ r < (2074 : Int))]
  rw [if_neg (by omega : ¬ r < (2137 : Int))]
  rw [if_neg (by omega : ¬ r < (2192 : Int))]
  rw [if_neg (by omega : ¬(2192 ≤ r ∧ (rp ≤ 100 ∨ gp ≤ 300)))]
  rw [if_pos h2]

/-- Evaluation of the web.rs tier function on its Master 2 arm. -/
lemma web_eval_m2 (r rp gp : Int) (h1 : 2275 ≤ r) (h2 : r < 2350)
    (hp : ¬(rp ≤ 100 ∨ gp ≤ 300)) :
    elo_to_rank_web r rp gp = "Master 2" := by
  unfold elo_to_rank_web
  rw [if_neg (by omega : ¬ r < (766 : Int))]
  rw [if_neg (by omega : ¬ r < (914 : Int))]
  rw [if_neg (by omega : ¬ r < (1055 : Int))]
  rw [if_neg (by omega : ¬ r < (1189 : Int))]
  rw [if_neg (by omega : ¬ r < (1316 : Int))]
  rw [if_neg (by omega : ¬ r < (1436 : Int))]
  rw [if_neg (by omega : ¬ r < (1549 : Int))]
  rw [if_neg (by omega : ¬ r < (1654 : Int))]
  rw [if_neg (by omega : ¬ r < (1752 : Int))]
  rw [if_neg (by omega : ¬ r < (1843 : Int))]
  rw [if_neg (by omega : ¬ r < (1928 : Int))]
  rw [if_neg (by omega : ¬ r < (2004 : Int))]
  rw [if_neg (by omega : ¬ r < (2074 : Int))]
  rw [if_neg (by omega : ¬ r < (2137 : Int))]
  rw [if_neg (by omega : ¬ r < (2192 : Int))]
  rw [if_neg (by omega : ¬(2192 ≤ r ∧ (rp ≤ 100 ∨ gp ≤ 300)))]
  rw [if_neg (by omega : ¬ r < (2275 : Int))]
  rw [if_pos h2]

/-- Evaluation of the web.rs tier function on its Master 3 arm. -/
lemma web_eval_m3 (r rp gp : Int) (h1 : 2350 ≤ r)
    (hp : ¬(rp ≤ 100 ∨ gp ≤ 300)) :
    elo_to_rank_web r rp gp = "Master 3" := by
  unfold elo_to_rank_web
  rw [if_neg (by omega : ¬ r < (766 : Int))]
  rw [if_neg (by omega : ¬ r < (914 : Int))]
  rw [if_neg (by omega : ¬ r < (1055 : Int))]
  rw [if_neg (by omega : ¬ r < (1189 : Int))]
  rw [if_neg (by omega : ¬ r < (1316 : Int))]
  rw [if_neg (by omega : ¬ r < (1436 : Int))]
  rw [if_neg (by omega : ¬ r < (1549 : Int))]
  rw [if_neg (by omega : ¬ r < (1654 : Int))]
  rw [if_neg (by omega : ¬ r < (1752 : Int))]
  rw [if_neg (by omega : ¬ r < (1843 : Int))]
  rw [if_neg (by omega : ¬ r < (1928 : Int))]
  rw [if_neg (by omega : ¬ r < (2004 : Int))]
  rw [if_neg (by omega : ¬ r < (2074 : Int))]
  rw [if_neg (by omega : ¬ r < (2137 : Int))]
  rw [if_neg (by omega : ¬ r < (2192 : Int))]
  rw [if_neg (by omega : ¬(2192 ≤ r ∧ (rp ≤ 100 ∨ gp ≤ 300)))]
  rw [if_neg (by omega : ¬ r < (2275 : Int))]
  rw [if_neg (by omega : ¬ r < (2350 : Int))]
  rw [if_pos h1]

/-- Evaluation of the amended band table on its Grandmaster arm. -/
lemma amended_eval_gm (r rp gp : Int) (h1 : 2192 ≤ r)
    (hp : rp ≤ 100 ∨ gp ≤ 300) :
    amendedTierLabel r rp gp = "Grandmaster" := by
  unfold amendedTierLabel
  rw [if_pos ⟨h1, hp⟩]

/-- Evaluation of the amended band table on its lowest band. -/
lemma amended_eval_0 (r rp gp : Int) (h2 : r < 766) :
    amendedTierLabel r rp gp = "Bronze 1" := by
  unfold amendedTierLabel
  rw [if_neg (by omega : ¬(2192 ≤ r ∧ (rp ≤ 100 ∨ gp ≤ 300)))]
  rw [if_pos h2]

/-- Evaluation of the amended band table on its band 1. -/
lemma amended_eval_1 (r rp gp : Int) (h1 : 766 ≤ r) (h2 : r < 914) :
    amendedTierLabel r rp gp = "Bronze 2" := by
  unfold amendedTierLabel
  rw [if_neg (by omega : ¬(2192 ≤ r ∧ (rp ≤ 100 ∨ gp ≤ 300)))]
  rw [if_neg (by omega : ¬ r < (766 : Int))]
  rw [if_pos ⟨h1, h2⟩]

/-- Evaluation of the amended band table on its band 2. -/
lemma amended_eval_2 (r rp gp : Int) (h1 : 914 ≤ r) (h2 : r < 1055) :
    amendedTierLabel r rp gp = "Bronze 3" := by
  unfold amendedTierLabel
  rw [if_neg (by omega : ¬(2192 ≤ r ∧ (rp ≤ 100 ∨ gp ≤ 300)))]
  rw [if_neg (by omega : ¬ r < (766 : Int))]
  rw [if_neg (by omega : ¬((766 : Int) ≤ r ∧ r < 914))]
  rw [if_pos ⟨h1, h2⟩]

/-- Evaluation of the amended band table on its band 3. -/
lemma amended_eval_3 (r rp gp : Int) (h1 : 1055 ≤ r) (h2 : r < 1189) :
    amendedTierLabel r rp gp = "Silver 1" := by
  unfold amendedTierLabel
  rw [if_neg (by omega : ¬(2192 ≤ r ∧ (rp ≤ 100 ∨ gp ≤ 300)))]
  rw [if_neg (by omega : ¬ r < (766 : Int))]
  rw [if_neg (by omega : ¬((766 : Int) ≤ r ∧ r < 914))]
  rw [if_neg (by omega : ¬((914 : Int) ≤ r ∧ r < 1055))]
  rw [if_pos ⟨h1, h2⟩]

/-- Evaluation of the amended band table on its band 4. -/
lemma amended_eval_4 (r rp gp : Int) (h1 : 1189 ≤ r) (h2 : r < 1316) :
    amendedTierLabel r rp gp = "Silver 2" := by
  unfold amendedTierLabel
  rw [if_neg (by omega : ¬(2192 ≤ r ∧ (rp ≤ 100 ∨ gp ≤ 300)))]
  rw [if_neg (by omega : ¬ r < (766 : Int))]
  rw [if_neg (by omega : ¬((766 : Int) ≤ r ∧ r < 914))]
  rw [if_neg (by omega : ¬((914 : Int) ≤ r ∧ r < 1055))]
  rw [if_neg (by omega : ¬((1055 : Int) ≤ r ∧ r < 1189))]
  rw [if_pos ⟨h1, h2⟩]

/-- Evaluation of the amended band table on its band 5. -/
lemma amended_eval_5 (r rp gp : Int) (h1 : 1316 ≤ r) (h2 : r < 1436) :
    amendedTierLabel r rp gp = "Silver 3" := by
  unfold amendedTierLabel
  rw [if_neg (by omega : ¬(2192 ≤ r ∧ (rp ≤ 100 ∨ gp ≤ 300)))]
  rw [if_neg (by omega : ¬ r < (766 : Int))]
  rw [if_neg (by omega : ¬((766 : Int) ≤ r ∧ r < 914))]
  rw [if_neg (by omega : ¬((914 : Int) ≤ r ∧ r < 1055))]
  rw [if_neg (by omega : ¬((1055 : Int) ≤ r ∧ r < 1189))]
  rw [if_neg (by omega : ¬((1189 : Int) ≤ r ∧ r < 1316))]
  rw [if_pos ⟨h1, h2⟩]

/-- Evaluation of the amended band table on its band 6. -/
lemma amended_eval_6 (r rp gp : Int) (h1 : 1436 ≤ r) (h2 : r < 1549) :
    amendedTierLabel r rp gp = "Gold 1" := by
  unfold amendedTierLabel
  rw [if_neg (by omega : ¬(2192 ≤ r ∧ (rp ≤ 100 ∨ gp ≤ 300)))]
  rw [if_neg (by omega : ¬ r < (766 : Int))]
  rw [if_neg (by omega : ¬((766 : Int) ≤ r ∧ r < 914))]
  rw [if_neg (by omega : ¬((914 : Int) ≤ r ∧ r < 1055))]
  rw [if_neg (by omega : ¬((1055 : Int) ≤ r ∧ r < 1189))]
  rw [if_neg (by omega : ¬((1189 : Int) ≤ r ∧ r < 1316))]
  rw [if_neg (by omega : ¬((1316 : Int) ≤ r ∧ r < 1436))]
  rw [if_pos ⟨h1, h2⟩]

/-- Evaluation of the amended band table on its band 7. -/
lemma amended_eval_7 (r rp gp : Int) (h1 : 1549 ≤ r) (h2 : r < 1654) :
    amendedTierLabel r rp gp = "Gold 2" := by
  unfold amendedTierLabel
  rw [if_neg (by omega : ¬(2192 ≤ r ∧ (rp ≤ 100 ∨ gp ≤ 300)))]
  rw [if_neg (by omega : ¬ r < (766 : Int))]
  rw [if_neg (by omega : ¬((766 : Int) ≤ r ∧ r < 914))]
  rw [if_neg (by omega : ¬((914 : Int) ≤ r ∧ r < 1055))]
  rw [if_neg (by omega : ¬((1055 : Int) ≤ r ∧ r < 1189))]
  rw [if_neg (by omega : ¬((1189 : Int) ≤ r ∧ r < 1316))]
  rw [if_neg (by omega : ¬((1316 : Int) ≤ r ∧ r < 1436))]
  rw [if_neg (by omega : ¬((1436 : Int) ≤ r ∧ r < 1549))]
  rw [if_pos ⟨h1, h2⟩]

/-- Evaluation of the amended band table on its band 8. -/
lemma amended_eval_8 (r rp gp : Int) (h1 : 1654 ≤ r) (h2 : r < 1752) :
    amendedTierLabel r rp gp = "Gold 3" := by
  unfold amendedTierLabel
  rw [if_neg (by omega : ¬(2192 ≤ r ∧ (rp ≤ 100 ∨ gp ≤ 300)))]
  rw [if_neg (by omega : ¬ r < (766 : Int))]
  rw [if_neg (by omega : ¬((766 : Int) ≤ r ∧ r < 914))]
  rw [if_neg (by omega : ¬((914 : Int) ≤ r ∧ r < 1055))]
  rw [if_neg (by omega : ¬((1055 : Int) ≤ r ∧ r < 1189))]
  rw [if_neg (by omega : ¬((1189 : Int) ≤ r ∧ r < 1316))]
  rw [if_neg (by omega : ¬((1316 : Int) ≤ r ∧ r < 1436))]
  rw [if_neg (by omega : ¬((1436 : Int) ≤ r ∧ r < 1549))]
  rw [if_neg (by omega : ¬((1549 : Int) ≤ r ∧ r < 1654))]
  rw [if_pos ⟨h1, h2⟩]

/-- Evaluation of the amended band table on its band 9. -/
lemma amended_eval_9 (r rp gp : Int) (h1 : 1752 ≤ r) (h2 : r < 1843) :
    amendedTierLabel r rp gp = "Platinum 1" := by
  unfold amendedTierLabel
  rw [if_neg (by omega : ¬(2192 ≤ r ∧ (rp ≤ 100 ∨ gp ≤ 300)))]
  rw [if_neg (by omega : ¬ r < (766 : Int))]
  rw [if_neg (by omega : ¬((766 : Int) ≤ r ∧ r < 914))]
  rw [if_neg (by omega : ¬((914 : Int) ≤ r ∧ r < 1055))]
  rw [if_neg (by omega : ¬((1055 : Int) ≤ r ∧ r < 1189))]
  rw [if_neg (by omega : ¬((1189 : Int) ≤ r ∧ r < 1316))]
  rw [if_neg (by omega : ¬((1316 : Int) ≤ r ∧ r < 1436))]
  rw [if_neg (by omega : ¬((1436 : Int) ≤ r ∧ r < 1549))]
  rw [if_neg (by omega : ¬((1549 : Int) ≤ r ∧ r < 1654))]
  rw [if_neg (by omega : ¬((1654 : Int) ≤ r ∧ r < 1752))]
  rw [if_pos ⟨h1, h2⟩]

/-- Evaluation of the amended band table on its band 10. -/
lemma amended_eval_10 (r rp gp : Int) (h1 : 1843 ≤ r) (h2 : r < 1928) :
    amendedTierLabel r rp gp = "Platinum 2" := by
  unfold amendedTierLabel
  rw [if_neg (by omega : ¬(2192 ≤ r ∧ (rp ≤ 100 ∨ gp ≤ 300)))]
  rw [if_neg (by omega : ¬ r < (766 : Int))]
  rw [if_neg (by omega : ¬((766 : Int) ≤ r ∧ r < 914))]
  rw [if_neg (by omega : ¬((914 : Int) ≤ r ∧ r < 1055))]
  rw [if_neg (by omega : ¬((1055 : Int) ≤ r ∧ r < 1189))]
  rw [if_neg (by omega : ¬((1189 : Int) ≤ r ∧ r < 1316))]
  rw [if_neg (by omega : ¬((1316 : Int) ≤ r ∧ r < 1436))]
  rw [if_neg (by omega : ¬((1436 : Int) ≤ r ∧ r < 1549))]
  rw [if_neg (by omega : ¬((1549 : Int) ≤ r ∧ r < 1654))]
  rw [if_neg (by omega : ¬((1654 : Int) ≤ r ∧ r < 1752))]
  rw [if_neg (by omega : ¬((1752 : Int) ≤ r ∧ r < 1843))]
  rw [if_pos ⟨h1, h2⟩]

/-- Evaluation of the amended band table on its band 11. -/
lemma amended_eval_11 (r rp gp : Int) (h1 : 1928 ≤ r) (h2 : r < 2004) :
    amendedTierLabel r rp gp = "Platinum 3" := by
  unfold amendedTierLabel
  rw [if_neg (by omega : ¬(2192 ≤ r ∧ (rp ≤ 100 ∨ gp ≤ 300)))]
  rw [if_neg (by omega : ¬ r < (766 : Int))]
  rw [if_neg (by omega : ¬((766 : Int) ≤ r ∧ r < 914))]
  rw [if_neg (by omega : ¬((914 : Int) ≤ r ∧ r < 1055))]
  rw [if_neg (by omega : ¬((1055 : Int) ≤ r ∧ r < 1189))]
  rw [if_neg (by omega : ¬((1189 : Int) ≤ r ∧ r < 1316))]
  rw [if_neg (by omega : ¬((1316 : Int) ≤ r ∧ r < 1436))]
  rw [if_neg (by omega : ¬((1436 : Int) ≤ r ∧ r < 1549))]
  rw [if_neg (by omega : ¬((1549 : Int) ≤ r ∧ r < 1654))]
  rw [if_neg (by omega : ¬((1654 : Int) ≤ r ∧ r < 1752))]
  rw [if_neg (by omega : ¬((1752 : Int) ≤ r ∧ r < 1843))]
  rw [if_neg (by omega : ¬((1843 : Int) ≤ r ∧ r < 1928))]
  rw [if_pos ⟨h1, h2⟩]

/-- Evaluation of the amended band table on its band 12. -/
lemma amended_eval_12 (r rp gp : Int) (h1 : 2004 ≤ r) (h2 : r < 2074) :
    amendedTierLabel r rp gp = "Diamond 1" := by
  unfold amendedTierLabel
  rw [if_neg (by omega : ¬(2192 ≤ r ∧ (rp ≤ 100 ∨ gp ≤ 300)))]
  rw [if_neg (by omega : ¬ r < (766 : Int))]
  rw [if_neg (by omega : ¬((766 : Int) ≤ r ∧ r < 914))]
  rw [if_neg (by omega : ¬((914 : Int) ≤ r ∧ r < 1055))]
  rw [if_neg (by omega : ¬((1055 : Int) ≤ r ∧ r < 1189))]
  rw [if_neg (by omega : ¬((1189 : Int) ≤ r ∧ r < 1316))]
  rw [if_neg (by omega : ¬((1316 : Int) ≤ r ∧ r < 1436))]
  rw [if_neg (by omega : ¬((1436 : Int) ≤ r ∧ r < 1549))]
  rw [if_neg (by omega : ¬((1549 : Int) ≤ r ∧ r < 1654))]
  rw [if_neg (by omega : ¬((1654 : Int) ≤ r ∧ r < 1752))]
  rw [if_neg (by omega : ¬((1752 : Int) ≤ r ∧ r < 1843))]
  rw [if_neg (by omega : ¬((1843 : Int) ≤ r ∧ r < 1928))]
  rw [if_neg (by omega : ¬((1928 : Int) ≤ r ∧ r < 2004))]
  rw [if_pos ⟨h1, h2⟩]

/-- Evaluation of the amended band table on its band 13. -/
lemma amended_eval_13 (r rp gp : Int) (h1 : 2074 ≤ r) (h2 : r < 2137) :
    amendedTierLabel r rp gp = "Diamond 2" := by
  unfold amendedTierLabel
  rw [if_neg (by omega : ¬(2192 ≤ r ∧ (rp ≤ 100 ∨ gp ≤ 300)))]
  rw [if_neg (by omega : ¬ r < (766 : Int))]
  rw [if_neg (by omega : ¬((766 : Int) ≤ r ∧ r < 914))]
  rw [if_neg (by omega : ¬((914 : Int) ≤ r ∧ r < 1055))]
  rw [if_neg (by omega : ¬((1055 : Int) ≤ r ∧ r < 1189))]
  rw [if_neg (by omega : ¬((1189 : Int) ≤ r ∧ r < 1316))]
  rw [if_neg (by omega : ¬((1316 : Int) ≤ r ∧ r < 1436))]
  rw [if_neg (by omega : ¬((1436 : Int) ≤ r ∧ r < 1549))]
  rw [if_neg (by omega : ¬((1549 : Int) ≤ r ∧ r < 1654))]
  rw [if_neg (by omega : ¬((1654 : Int) ≤ r ∧ r < 1752))]
  rw [if_neg (by omega : ¬((1752 : Int) ≤ r ∧ r < 1843))]
  rw [if_neg (by omega : ¬((1843 : Int) ≤ r ∧ r < 1928))]
  rw [if_neg (by omega : ¬((1928 : Int) ≤ r ∧ r < 2004))]
  rw [if_neg (by omega : ¬((2004 : Int) ≤ r ∧ r < 2074))]
  rw [if_pos ⟨h1, h2⟩]

/-- Evaluation of the amended band table on its band 14. -/
lemma amended_eval_14 (r rp gp : Int) (h1 : 2137 ≤ r) (h2 : r < 2192) :
    amendedTierLabel r rp gp = "Diamond 3" := by
  unfold amendedTierLabel
  rw [if_neg (by omega : ¬(2192 ≤ r ∧ (rp ≤ 100 ∨ gp ≤ 300)))]
  rw [if_neg (by omega : ¬ r < (766 : Int))]
  rw [if_neg (by omega : ¬((766 : Int) ≤ r ∧ r < 914))]
  rw [if_neg (by omega : ¬((914 : Int) ≤ r ∧ r < 1055))]
  rw [if_neg (by omega : ¬((1055 : Int) ≤ r ∧ r < 1189))]
  rw [if_neg (by omega : ¬((1189 : Int) ≤ r ∧ r < 1316))]
  rw [if_neg (by omega : ¬((1316 : Int) ≤ r ∧ r < 1436))]
  rw [if_neg (by omega : ¬((1436 : Int) ≤ r ∧ r < 1549))]
  rw [if_neg (by omega : ¬((1549 : Int) ≤ r ∧ r < 1654))]
  rw [if_neg (by omega : ¬((1654 : Int) ≤ r ∧ r < 1752))]
  rw [if_neg (by omega : ¬((1752 : Int) ≤ r ∧ r < 1843))]
  rw [if_neg (by omega : ¬((1843 : Int) ≤ r ∧ r < 1928))]
  rw [if_neg (by omega : ¬((1928 : Int) ≤ r ∧ r < 2004))]
  rw [if_neg (by omega : ¬((2004 : Int) ≤ r ∧ r < 2074))]
  rw [if_neg (by omega : ¬((2074 : Int) ≤ r ∧ r < 2137))]
  rw [if_pos ⟨h1, h2⟩]

/-- Evaluation of the amended band table on its Master 1 band. -/
lemma amended_eval_m1 (r rp gp : Int) (h1 : 2192 ≤ r) (h2 : r < 2275)
    (hp : ¬(rp ≤ 100 ∨ gp ≤ 300)) :
    amendedTierLabel r rp gp = "Master 1" := by
  unfold amendedTierLabel
  rw [if_neg (by omega : ¬(2192 ≤ r ∧ (rp ≤ 100 ∨ gp ≤ 300)))]
  rw [if_neg (by omega : ¬ r < (766 : Int))]
  rw [if_neg (by omega : ¬((766 : Int) ≤ r ∧ r < 914))]
  rw [if_neg (by omega : ¬((914 : Int) ≤ r ∧ r < 1055))]
  rw [if_neg (by omega : ¬((1055 : Int) ≤ r ∧ r < 1189))]
  rw [if_neg (by omega : ¬((1189 : Int) ≤ r ∧ r < 1316))]
  rw [if_neg (by omega : ¬((1316 : Int) ≤ r ∧ r < 1436))]
  rw [if_neg (by omega : ¬((1436 : Int) ≤ r ∧ r < 1549))]
  rw [if_neg (by omega : ¬((1549 : Int) ≤ r ∧ r < 1654))]
  rw [if_neg (by omega : ¬((1654 : Int) ≤ r ∧ r < 1752))]
  rw [if_neg (by omega : ¬((1752 : Int) ≤ r ∧ r < 1843))]
  rw [if_neg (by omega : ¬((1843 : Int) ≤ r ∧ r < 1928))]
  rw [if_neg (by omega : ¬((1928 : Int) ≤ r ∧ r < 2004))]
  rw [if_neg (by omega : ¬((2004 : Int) ≤ r ∧ r < 2074))]
  rw [if_neg (by omega : ¬((2074 : Int) ≤ r ∧ r < 2137))]
  rw [if_neg (by omega : ¬((2137 : Int) ≤ r ∧ r < 2192))]
  rw [if_pos ⟨h1, h2⟩]

/-- Evaluation of the amended band table on its Master 2 band. -/
lemma amended_eval_m2 (r rp gp : Int) (h1 : 2275 ≤ r) (h2 : r < 2350)
    (hp : ¬(rp ≤ 100 ∨ gp ≤ 300)) :
    amendedTierLabel r rp gp = "Master 2" := by
  unfold amendedTierLabel
  rw [if_neg (by omega : ¬(2192 ≤ r ∧ (rp ≤ 100 ∨ gp ≤ 300)))]
  rw [if_neg (by omega : ¬ r < (766 : Int))]
  rw [if_neg (by omega : ¬((766 : Int) ≤ r ∧ r < 914))]
  rw [if_neg (by omega : ¬((914 : Int) ≤ r ∧ r < 1055))]
  rw [if_neg (by omega : ¬((1055 : Int) ≤ r ∧ r < 1189))]
  rw [if_neg (by omega : ¬((1189 : Int) ≤ r ∧ r < 1316))]
  rw [if_neg (by omega : ¬((1316 : Int) ≤ r ∧ r < 1436))]
  rw [if_neg (by omega : ¬((1436 : Int) ≤ r ∧ r < 1549))]
  rw [if_neg (by omega : ¬((1549 : Int) ≤ r ∧ r < 1654))]
  rw [if_neg (by omega : ¬((1654 : Int) ≤ r ∧ r < 1752))]
  rw [if_neg (by omega : ¬((1752 : Int) ≤ r ∧ r < 1843))]
  rw [if_neg (by omega : ¬((1843 : Int) ≤ r ∧ r < 1928))]
  rw [if_neg (by omega : ¬((1928 : Int) ≤ r ∧ r < 2004))]
  rw [if_neg (by omega : ¬((2004 : Int) ≤ r ∧ r < 2074))]
  rw [if_neg (by omega : ¬((2074 : Int) ≤ r ∧ r < 2137))]
  rw [if_neg (by omega : ¬((2137 : Int) ≤ r ∧ r < 2192))]
  rw [if_neg (by omega : ¬((2192 : Int) ≤ r ∧ r < 2275))]
  rw [if_pos ⟨h1, h2⟩]

/-- Evaluation of the amended band table on its Master 3 band. -/
lemma amended_eval_m3 (r rp gp : Int) (h1 : 2350 ≤ r)
    (hp : ¬(rp ≤ 100 ∨ gp ≤ 300)) :
    amendedTierLabel r rp gp = "Master 3" := by
  unfold amendedTierLabel
  rw [if_neg (by omega : ¬(2192 ≤ r ∧ (rp ≤ 100 ∨ gp ≤ 300)))]
  rw [if_neg (by omega : ¬ r < (766 : Int))]
  rw [if_neg (by omega : ¬((766 : Int) ≤ r ∧ r < 914))]
  rw [if_neg (by omega : ¬((914 : Int) ≤ r ∧ r < 1055))]
  rw [if_neg (by omega : ¬((1055 : Int) ≤ r ∧ r < 1189))]
  rw [if_neg (by omega : ¬((1189 : Int) ≤ r ∧ r < 1316))]
  rw [if_neg (by omega : ¬((1316 : Int) ≤ r ∧ r < 1436))]
  rw [if_neg (by omega : ¬((1436 : Int) ≤ r ∧ r < 1549))]
  rw [if_neg (by omega : ¬((1549 : Int) ≤ r ∧ r < 1654))]
  rw [if_neg (by omega : ¬((1654 : Int) ≤ r ∧ r < 1752))]
  rw [if_neg (by omega : ¬((1752 : Int) ≤ r ∧ r < 1843))]
  rw [if_neg (by omega : ¬((1843 : Int) ≤ r ∧ r < 1928))]
  rw [if_neg (by omega : ¬((1928 : Int) ≤ r ∧ r < 2004))]
  rw [if_neg (by omega : ¬((2004 : Int) ≤ r ∧ r < 2074))]
  rw [if_neg (by omega : ¬((2074 : Int) ≤ r ∧ r < 2137))]
  rw [if_neg (by omega : ¬((2137 : Int) ≤ r ∧ r < 2192))]
  rw [if_neg (by omega : ¬((2192 : Int) ≤ r ∧ r < 2275))]
  rw [if_neg (by omega : ¬((2275 : Int) ≤ r ∧ r < 2350))]

/-- Evaluation of the peppi.rs tier function on each of its bands. -/
lemma peppi_eval_0 (r : Int) (h1 : 0 ≤ r) (h2 : r ≤ 765) :
    elo_to_rank_peppi r = "Bronze 1" := by
  unfold elo_to_rank_peppi
  rw [if_pos ⟨h1, h2⟩]

lemma peppi_eval_1 (r : Int) (h1 : 766 ≤ r) (h2 : r ≤ 913) :
    elo_to_rank_peppi r = "Bronze 2" := by
  unfold elo_to_rank_peppi
  rw [if_neg (by omega : ¬((0 : Int) ≤ r ∧ r ≤ 765))]
  rw [if_pos ⟨h1, h2⟩]

lemma peppi_eval_2 (r : Int) (h1 : 914 ≤ r) (h2 : r ≤ 1054) :
    elo_to_rank_peppi r = "Bronze 3" := by
  unfold elo_to_rank_peppi
  rw [if_neg (by omega : ¬((0 : Int) ≤ r ∧ r ≤ 765))]
  rw [if_neg (by omega : ¬((766 : Int) ≤ r ∧ r ≤ 913))]
  rw [if_pos ⟨h1, h2⟩]

lemma peppi_eval_3 (r : Int) (h1 : 1055 ≤ r) (h2 : r ≤ 1188) :
    elo_to_rank_peppi r = "Silver 1" := by
  unfold elo_to_rank_peppi
  rw [if_neg (by omega : ¬((0 : Int) ≤ r ∧ r ≤ 765))]
  rw [if_neg (by omega : ¬((766 : Int) ≤ r ∧ r ≤ 913))]
  rw [if_neg (by omega : ¬((914 : Int) ≤ r ∧ r ≤ 1054))]
  rw [if_pos ⟨h1, h2⟩]

lemma peppi_eval_4 (r : Int) (h1 : 1189 ≤ r) (h2 : r ≤ 1315) :
    elo_to_rank_peppi r = "Silver 2" := by
  unfold elo_to_rank_peppi
  rw [if_neg (by omega : ¬((0 : Int) ≤ r ∧ r ≤ 765))]
  rw [if_neg (by omega : ¬((766 : Int) ≤ r ∧ r ≤ 913))]
  rw [if_neg (by omega : ¬((914 : Int) ≤ r ∧ r ≤ 1054))]
  rw [if_neg (by omega : ¬((1055 : Int) ≤ r ∧ r ≤ 1188))]
  rw [if_pos ⟨h1, h2⟩]

lemma peppi_eval_5 (r : Int) (h1 : 1316 ≤ r) (h2 : r ≤ 1436) :
    elo_to_rank_peppi r = "Silver 3" := by
  unfold elo_to_rank_peppi
  rw [if_neg (by omega : ¬((0 : Int) ≤ r ∧ r ≤ 765))]
  rw [if_neg (by omega : ¬((766 : Int) ≤ r ∧ r ≤ 913))]
  rw [if_neg (by omega : ¬((914 : Int) ≤ r ∧ r ≤ 1054))]
  rw [if_neg (by omega : ¬((1055 : Int) ≤ r ∧ r ≤ 1188))]
  rw [if_neg (by omega : ¬((1189 : Int) ≤ r ∧ r ≤ 1315))]
  rw [if_pos ⟨h1, h2⟩]

lemma peppi_eval_6 (r : Int) (h1 : 1437 ≤ r) (h2 : r ≤ 1546) :
    elo_to_rank_peppi r = "Gold 1" := by
  unfold elo_to_rank_peppi
  rw [if_neg (by omega : ¬((0 : Int) ≤ r ∧ r ≤ 765))]
  rw [if_neg (by omega : ¬((766 : Int) ≤ r ∧ r ≤ 913))]
  rw [if_neg (by omega : ¬((914 : Int) ≤ r ∧ r ≤ 1054))]
  rw [if_neg (by omega : ¬((1055 : Int) ≤ r ∧ r ≤ 1188))]
  rw [if_neg (by omega : ¬((1189 : Int) ≤ r ∧ r ≤ 1315))]
  rw [if_neg (by omega : ¬((1316 : Int) ≤ r ∧ r ≤ 1436))]
  rw [if_pos ⟨h1, h2⟩]

lemma peppi_eval_7 (r : Int) (h1 : 1547 ≤ r) (h2 : r ≤ 1654) :
    elo_to_rank_peppi r = "Gold 2" := by
  unfold elo_to_rank_peppi
  rw [if_neg (by omega : ¬((0 : Int) ≤ r ∧ r ≤ 765))]
  rw [if_neg (by omega : ¬((766 : Int) ≤ r ∧ r ≤ 913))]
  rw [if_neg (by omega : ¬((914 : Int) ≤ r ∧ r ≤ 1054))]
  rw [if_neg (by omega : ¬((1055 : Int) ≤ r ∧ r ≤ 1188))]
  rw [if_neg (by omega : ¬((1189 : Int) ≤ r ∧ r ≤ 1315))]
  rw [if_neg (by omega : ¬((1316 : Int) ≤ r ∧ r ≤ 1436))]
  rw [if_neg (by omega : ¬((1437 : Int) ≤ r ∧ r ≤ 1546))]
  rw [if_pos ⟨h1, h2⟩]

lemma peppi_eval_8 (r : Int) (h1 : 1655 ≤ r) (h2 : r ≤ 1751) :
    elo_to_rank_peppi r = "Gold 3" := by
  unfold elo_to_rank_peppi
  rw [if_neg (by omega : ¬((0 : Int) ≤ r ∧ r ≤ 765))]
  rw [if_neg (by omega : ¬((766 : Int) ≤ r ∧ r ≤ 913))]
  rw [if_neg (by omega : ¬((914 : Int) ≤ r ∧ r ≤ 1054))]
  rw [if_neg (by omega : ¬((1055 : Int) ≤ r ∧ r ≤ 1188))]
  rw [if_neg (by omega : ¬((1189 : Int) ≤ r ∧ r ≤ 1315))]
  rw [if_neg (by omega : ¬((1316 : Int) ≤ r ∧ r ≤ 1436))]
  rw [if_neg (by omega : ¬((1437 : Int) ≤ r ∧ r ≤ 1546))]
  rw [if_neg (by omega : ¬((1547 : Int) ≤ r ∧ r ≤ 1654))]
  rw [if_pos ⟨h1, h2⟩]

lemma peppi_eval_9 (r : Int) (h1 : 1752 ≤ r) (h2 : r ≤ 1842) :
    elo_to_rank_peppi r = "Platinum 1" := by
  unfold elo_to_rank_peppi
  rw [if_neg (by omega : ¬((0 : Int) ≤ r ∧ r ≤ 765))]
  rw [if_neg (by omega : ¬((766 : Int) ≤ r ∧ r ≤ 913))]
  rw [if_neg (by omega : ¬((914 : Int) ≤ r ∧ r ≤ 1054))]
  rw [if_neg (by omega : ¬((1055 : Int) ≤ r ∧ r ≤ 1188))]
  rw [if_neg (by omega : ¬((1189 : Int) ≤ r ∧ r ≤ 1315))]
  rw [if_neg (by omega : ¬((1316 : Int) ≤ r ∧ r ≤ 1436))]
  rw [if_neg (by omega : ¬((1437 : Int) ≤ r ∧ r ≤ 1546))]
  rw [if_neg (by omega : ¬((1547 : Int) ≤ r ∧ r ≤ 1654))]
  rw [if_neg (by omega : ¬((1655 : Int) ≤ r ∧ r ≤ 1751))]
  rw [if_pos ⟨h1, h2⟩]

lemma peppi_eval_10 (r : Int) (h1 : 1843 ≤ r) (h2 : r ≤ 1927) :
    elo_to_rank_peppi r = "Platinum 2" := by
  unfold elo_to_rank_peppi
  rw [if_neg (by omega : ¬((0 : Int) ≤ r ∧ r ≤ 765))]
  rw [if_neg (by omega : ¬((766 : Int) ≤ r ∧ r ≤ 913))]
  rw [if_neg (by omega : ¬((914 : Int) ≤ r ∧ r ≤ 1054))]
  rw [if_neg (by omega : ¬((1055 : Int) ≤ r ∧ r ≤ 1188))]
  rw [if_neg (by omega : ¬((1189 : Int) ≤ r ∧ r ≤ 1315))]
  rw [if_neg (by omega : ¬((1316 : Int) ≤ r ∧ r ≤ 1436))]
  rw [if_neg (by omega : ¬((1437 : Int) ≤ r ∧ r ≤ 1546))]
  rw [if_neg (by omega : ¬((1547 : Int) ≤ r ∧ r ≤ 1654))]
  rw [if_neg (by omega : ¬((1655 : Int) ≤ r ∧ r ≤ 1751))]
  rw [if_neg (by omega : ¬((1752 : Int) ≤ r ∧ r ≤ 1842))]
  rw [if_pos ⟨h1, h2⟩]

lemma peppi_eval_11 (r : Int) (h1 : 1928 ≤ r) (h2 : r ≤ 2003) :
    elo_to_rank_peppi r = "Platinum 3" := by
  unfold elo_to_rank_peppi
  rw [if_neg (by omega : ¬((0 : Int) ≤ r ∧ r ≤ 765))]
  rw [if_neg (by omega : ¬((766 : Int) ≤ r ∧ r ≤ 913))]
  rw [if_neg (by omega : ¬((914 : Int) ≤ r ∧ r ≤ 1054))]
  rw [if_neg (by omega : ¬((1055 : Int) ≤ r ∧ r ≤ 1188))]
  rw [if_neg (by omega : ¬((1189 : Int) ≤ r ∧ r ≤ 1315))]
  rw [if_neg (by omega : ¬((1316 : Int) ≤ r ∧ r ≤ 1436))]
  rw [if_neg (by omega : ¬((1437 : Int) ≤ r ∧ r ≤ 1546))]
  rw [if_neg (by omega : ¬((1547 : Int) ≤ r ∧ r ≤ 1654))]
  rw [if_neg (by omega : ¬((1655 : Int) ≤ r ∧ r ≤ 1751))]
  rw [if_neg (by omega : ¬((1752 : Int) ≤ r ∧ r ≤ 1842))]
  rw [if_neg (by omega : ¬((1843 : Int) ≤ r ∧ r ≤ 1927))]
  rw [if_pos ⟨h1, h2⟩]

lemma peppi_eval_12 (r : Int) (h1 : 2004 ≤ r) (h2 : r ≤ 2074) :
    elo_to_rank_peppi r = "Diamond 1" := by
  unfold elo_to_rank_peppi
  rw [if_neg (by omega : ¬((0 : Int) ≤ r ∧ r ≤ 765))]
  rw [if_neg (by omega : ¬((766 : Int) ≤ r ∧ r ≤ 913))]
  rw [if_neg (by omega : ¬((914 : Int) ≤ r ∧ r ≤ 1054))]
  rw [if_neg (by omega : ¬((1055 : Int) ≤ r ∧ r ≤ 1188))]
  rw [if_neg (by omega : ¬((1189 : Int) ≤ r ∧ r ≤ 1315))]
  rw [if_neg (by omega : ¬((1316 : Int) ≤ r ∧ r ≤ 1436))]
  rw [if_neg (by omega : ¬((1437 : Int) ≤ r ∧ r ≤ 1546))]
  rw [if_neg (by omega : ¬((1547 : Int) ≤ r ∧ r ≤ 1654))]
  rw [if_neg (by omega : ¬((1655 : Int) ≤ r ∧ r ≤ 1751))]
  rw [if_neg (by omega : ¬((1752 : Int) ≤ r ∧ r ≤ 1842))]
  rw [if_neg (by omega : ¬((1843 : Int) ≤ r ∧ r ≤ 1927))]
  rw [if_neg (by omega : ¬((1928 : Int) ≤ r ∧ r ≤ 2003))]
  rw [if_pos ⟨h1, h2⟩]

lemma peppi_eval_13 (r : Int) (h1 : 2075 ≤ r) (h2 : r ≤ 2136) :
    elo_to_rank_peppi r = "Diamond 2" := by
  unfold elo_to_rank_peppi
  rw [if_neg (by omega : ¬((0 : Int) ≤ r ∧ r ≤ 765))]
  rw [if_neg (by omega : ¬((766 : Int) ≤ r ∧ r ≤ 913))]
  rw [if_neg (by omega : ¬((914 : Int) ≤ r ∧ r ≤ 1054))]
  rw [if_neg (by omega : ¬((1055 : Int) ≤ r ∧ r ≤ 1188))]
  rw [if_neg (by omega : ¬((1189 : Int) ≤ r ∧ r ≤ 1315))]
  rw [if_neg (by omega : ¬((1316 : Int) ≤ r ∧ r ≤ 1436))]
  rw [if_neg (by omega : ¬((1437 : Int) ≤ r ∧ r ≤ 1546))]
  rw [if_neg (by omega : ¬((1547 : Int) ≤ r ∧ r ≤ 1654))]
  rw [if_neg (by omega : ¬((1655 : Int) ≤ r ∧ r ≤ 1751))]
  rw [if_neg (by omega : ¬((1752 : Int) ≤ r ∧ r ≤ 1842))]
  rw [if_neg (by omega : ¬((1843 : Int) ≤ r ∧ r ≤ 1927))]
  rw [if_neg (by omega : ¬((1928 : Int) ≤ r ∧ r ≤ 2003))]
  rw [if_neg (by omega : ¬((2004 : Int) ≤ r ∧ r ≤ 2074))]
  rw [if_pos ⟨h1, h2⟩]

lemma peppi_eval_14 (r : Int) (h1 : 2137 ≤ r) (h2 : r ≤ 2191) :
    elo_to_rank_peppi r = "Diamond 3" := by
  unfold elo_to_rank_peppi
  rw [if_neg (by omega : ¬((0 : Int) ≤ r ∧ r ≤ 765))]
  rw [if_neg (by omega : ¬((766 : Int) ≤ r ∧ r ≤ 913))]
  rw [if_neg (by omega : ¬((914 : Int) ≤ r ∧ r ≤ 1054))]
  rw [if_neg (by omega : ¬((1055 : Int) ≤ r ∧ r ≤ 1188))]
  rw [if_neg (by omega : ¬((1189 : Int) ≤ r ∧ r ≤ 1315))]
  rw [if_neg (by omega : ¬((1316 : Int) ≤ r ∧ r ≤ 1436))]
  rw [if_neg (by omega : ¬((1437 : Int) ≤ r ∧ r ≤ 1546))]
  rw [if_neg (by omega : ¬((1547 : Int) ≤ r ∧ r ≤ 1654))]
  rw [if_neg (by omega : ¬((1655 : Int) ≤ r ∧ r ≤ 1751))]
  rw [if_neg (by omega : ¬((1752 : Int) ≤ r ∧ r ≤ 1842))]
  rw [if_neg (by omega : ¬((1843 : Int) ≤ r ∧ r ≤ 1927))]
  rw [if_neg (by omega : ¬((1928 : Int) ≤ r ∧ r ≤ 2003))]
  rw [if_neg (by omega : ¬((2004 : Int) ≤ r ∧ r ≤ 2074))]
  rw [if_neg (by omega : ¬((2075 : Int) ≤ r ∧ r ≤ 2136))]
  rw [if_pos ⟨h1, h2⟩]

lemma peppi_eval_15 (r : Int) (h1 : 2192 ≤ r) (h2 : r ≤ 2274) :
    elo_to_rank_peppi r = "Master 1" := by
  unfold elo_to_rank_peppi
  rw [if_neg (by omega : ¬((0 : Int) ≤ r ∧ r ≤ 765))]
  rw [if_neg (by omega : ¬((766 : Int) ≤ r ∧ r ≤ 913))]
  rw [if_neg (by omega : ¬((914 : Int) ≤ r ∧ r ≤ 1054))]
  rw [if_neg (by omega : ¬((1055 : Int) ≤ r ∧ r ≤ 1188))]
  rw [if_neg (by omega : ¬((1189 : Int) ≤ r ∧ r ≤ 1315))]
  rw [if_neg (by omega : ¬((1316 : Int) ≤ r ∧ r ≤ 1436))]
  rw [if_neg (by omega : ¬((1437 : Int) ≤ r ∧ r ≤ 1546))]
  rw [if_neg (by omega : ¬((1547 : Int) ≤ r ∧ r ≤ 1654))]
  rw [if_neg (by omega : ¬((1655 : Int) ≤ r ∧ r ≤ 1751))]
  rw [if_neg (by omega : ¬((1752 : Int) ≤ r ∧ r ≤ 1842))]
  rw [if_neg (by omega : ¬((1843 : Int) ≤ r ∧ r ≤ 1927))]
  rw [if_neg (by omega : ¬((1928 : Int) ≤ r ∧ r ≤ 2003))]
  rw [if_neg (by omega : ¬((2004 : Int) ≤ r ∧ r ≤ 2074))]
  rw [if_neg (by omega : ¬((2075 : Int) ≤ r ∧ r ≤ 2136))]
  rw [if_neg (by omega : ¬((2137 : Int) ≤ r ∧ r ≤ 2191))]
  rw [if_pos ⟨h1, h2⟩]

lemma peppi_eval_16 (r : Int) (h1 : 2275 ≤ r) (h2 : r ≤ 2350) :
    elo_to_rank_peppi r = "Master 2" := by
  unfold elo_to_rank_peppi
  rw [if_neg (by omega : ¬((0 : Int) ≤ r ∧ r ≤ 765))]
  rw [if_neg (by omega : ¬((766 : Int) ≤ r ∧ r ≤ 913))]
  rw [if_neg (by omega : ¬((914 : Int) ≤ r ∧ r ≤ 1054))]
  rw [if_neg (by omega : ¬((1055 : Int) ≤ r ∧ r ≤ 1188))]
  rw [if_neg (by omega : ¬((1189 : Int) ≤ r ∧ r ≤ 1315))]
  rw [if_neg (by omega : ¬((1316 : Int) ≤ r ∧ r ≤ 1436))]
  rw [if_neg (by omega : ¬((1437 : Int) ≤ r ∧ r ≤ 1546))]
  rw [if_neg (by omega : ¬((1547 : Int) ≤ r ∧ r ≤ 1654))]
  rw [if_neg (by omega : ¬((1655 : Int) ≤ r ∧ r ≤ 1751))]
  rw [if_neg (by omega : ¬((1752 : Int) ≤ r ∧ r ≤ 1842))]
  rw [if_neg (by omega : ¬((1843 : Int) ≤ r ∧ r ≤ 1927))]
  rw [if_neg (by omega : ¬((1928 : Int) ≤ r ∧ r ≤ 2003))]
  rw [if_neg (by omega : ¬((2004 : Int) ≤ r ∧ r ≤ 2074))]
  rw [if_neg (by omega : ¬((2075 : Int) ≤ r ∧ r ≤ 2136))]
  rw [if_neg (by omega : ¬((2137 : Int) ≤ r ∧ r ≤ 2191))]
  rw [if_neg (by omega : ¬((2192 : Int) ≤ r ∧ r ≤ 2274))]
  rw [if_pos ⟨h1, h2⟩]

lemma peppi_eval_17 (r : Int) (h1 : 2351 ≤ r) (h2 : r ≤ 2999) :
    elo_to_rank_peppi r = "Master 3" := by
  unfold elo_to_rank_peppi
  rw [if_neg (by omega : ¬((0 : Int) ≤ r ∧ r ≤ 765))]
  rw [if_neg (by omega : ¬((766 : Int) ≤ r ∧ r ≤ 913))]
  rw [if_neg (by omega : ¬((914 : Int) ≤ r ∧ r ≤ 1054))]
  rw [if_neg (by omega : ¬((1055 : Int) ≤ r ∧ r ≤ 1188))]
  rw [if_neg (by omega : ¬((1189 : Int) ≤ r ∧ r ≤ 1315))]
  rw [if_neg (by omega : ¬((1316 : Int) ≤ r ∧ r ≤ 1436))]
  rw [if_neg (by omega : ¬((1437 : Int) ≤ r ∧ r ≤ 1546))]
  rw [if_neg (by omega : ¬((1547 : Int) ≤ r ∧ r ≤ 1654))]
  rw [if_neg (by omega : ¬((1655 : Int) ≤ r ∧ r ≤ 1751))]
  rw [if_neg (by omega : ¬((1752 : Int) ≤ r ∧ r ≤ 1842))]
  rw [if_neg (by omega : ¬((1843 : Int) ≤ r ∧ r ≤ 1927))]
  rw [if_neg (by omega : ¬((1928 : Int) ≤ r ∧ r ≤ 2003))]
  rw [if_neg (by omega : ¬((2004 : Int) ≤ r ∧ r ≤ 2074))]
  rw [if_neg (by omega : ¬((2075 : Int) ≤ r ∧ r ≤ 2136))]
  rw [if_neg (by omega : ¬((2137 : Int) ≤ r ∧ r ≤ 2191))]
  rw [if_neg (by omega : ¬((2192 : Int) ≤ r ∧ r ≤ 2274))]
  rw [if_neg (by omega : ¬((2275 : Int) ≤ r ∧ r ≤ 2350))]
  rw [if_pos ⟨h1, h2⟩]

/-! Per-claim theorems. -/

/-- C2, counterexample: at rating 1436 with both placements absent, the
claimed band table (Silver 3 up to and including breakpoint 1436) says
"Silver 3", but elo_to_rank in web.rs answers "Gold 1" because its Silver
3 guard is the strict bound rating < 1436. -/
theorem c2_counterexample :
    elo_to_rank_web 1436 i32Max i32Max = "Gold 1" ∧
    claimTierLabel 1436 i32Max i32Max = "Silver 3" ∧
    "Gold 1" ≠ "Silver 3" :=
  ⟨by decide, by decide, by decide⟩

set_option maxHeartbeats 1000000 in
/-- C2, amended: the rank label of web.rs is determined by contiguous
half-open bands with cutoffs 766/914/1055/1189/1316/1436/1549/1654/1752/
1843/1928/2004/2074/2137/2192/2275/2350 (so the inclusive breakpoints
below Master are 765/913/1054/1188/1315/1435/1548/1653/1751/1842/1927/
2003/2073/2136/2191, and Master 1 / Master 2 end at 2274 / 2349), with
the Grandmaster overlay for rating at least 2192 combined with regional
placement at most 100 or global placement at most 300; rating 2200 with
regional placement 50 gives "Grandmaster" and rating 2200 with
placements 500/500 gives "Master 1". -/
theorem c2_web_tier_bands :
    (∀ rating regional_placement global_placement : Int,
        elo_to_rank_web rating regional_placement global_placement =
          amendedTierLabel rating regional_placement global_placement) ∧
    elo_to_rank_web 2200 50 i32Max = "Grandmaster" ∧
    elo_to_rank_web 2200 500 500 = "Master 1" := by
  refine ⟨?_, by decide, by decide⟩
  intro r rp gp
  rcases lt_or_le r 766 with h0 | h0
  · exact (web_eval_0 r rp gp h0).trans (amended_eval_0 r rp gp h0).symm
  rcases lt_or_le r 914 with h1 | h1
  · exact (web_eval_1 r rp gp h0 h1).trans
      (amended_eval_1 r rp gp h0 h1).symm
  rcases lt_or_le r 1055 with h2 | h2
  · exact (web_eval_2 r rp gp h1 h2).trans
      (amended_eval_2 r rp gp h1 h2).symm
  rcases lt_or_le r 1189 with h3 | h3
  · exact (web_eval_3 r rp gp h2 h3).trans
      (amended_eval_3 r rp gp h2 h3).symm
  rcases lt_or_le r 1316 with h4 | h4
  · exact (web_eval_4 r rp gp h3 h4).trans
      (amended_eval_4 r rp gp h3 h4).symm
  rcases lt_or_le r 1436 with h5 | h5
  · exact (web_eval_5 r rp gp h4 h5).trans
      (amended_eval_5 r rp gp h4 h5).symm
  rcases lt_or_le r 1549 with h6 | h6
  · exact (web_eval_6 r rp gp h5 h6).trans
      (amended_eval_6 r rp gp h5 h6).symm
  rcases lt_or_le r 1654 with h7 | h7
  · exact (web_eval_7 r rp gp h6 h7).trans
      (amended_eval_7 r rp gp h6 h7).symm
  rcases lt_or_le r 1752 with h8 | h8
  · exact (web_eval_8 r rp gp h7 h8).trans
      (amended_eval_8 r rp gp h7 h8).symm
  rcases lt_or_le r 1843 with h9 | h9
  · exact (web_eval_9 r rp gp h8 h9).trans
      (amended_eval_9 r rp gp h8 h9).symm
  rcases lt_or_le r 1928 with h10 | h10
  · exact (web_eval_10 r rp gp h9 h10).trans
      (amended_eval_10 r rp gp h9 h10).symm
  rcases lt_or_le r 2004 with h11 | h11
  · exact (web_eval_11 r rp gp h10 h11).trans
      (amended_eval_11 r rp gp h10 h11).symm
  rcases lt_or_le r 2074 with h12 | h12
  · exact (web_eval_12 r rp gp h11 h12).trans
      (amended_eval_12 r rp gp h11 h12).symm
  rcases lt_or_le r 2137 with h13 | h13
  · exact (web_eval_13 r rp gp h12 h13).trans
      (amended_eval_13 r rp gp h12 h13).symm
  rcases lt_or_le r 2192 with h14 | h14
  · exact (web_eval_14 r rp gp h13 h14).trans
      (amended_eval_14 r rp gp h13 h14).symm
  by_cases hp : rp ≤ 100 ∨ gp ≤ 300
  · exact (web_eval_gm r rp gp h14 hp).trans
      (amended_eval_gm r rp gp h14 hp).symm
  rcases lt_or_le r 2275 with h15 | h15
  · exact (web_eval_m1 r rp gp h14 h15 hp).trans
      (amended_eval_m1 r rp gp h14 h15 hp).symm
  rcases lt_or_le r 2350 with h16 | h16
  · exact (web_eval_m2 r rp gp h15 h16 hp).trans
      (amended_eval_m2 r rp gp h15 h16 hp).symm
  exact (web_eval_m3 r rp gp h16 hp).trans
    (amended_eval_m3 r rp gp h16 hp).symm

/-- C8, counterexample: for the frame-index stream whose last entry is
null but which contains the non-null value 5 earlier, the last non-null
value of the stream is 5, yet extract_game_duration returns nothing - it
inspects only the final entry. -/
theorem c8_counterexample :
    specLastNonNull [some 5, none] = some 5 ∧
    extract_game_duration [some 5, none] = none :=
  ⟨by decide, by decide⟩

/-- C8, amended: the extracted duration is the LAST entry of the
frame-index stream whenever that entry is non-null, and is absent exactly
when the stream is empty or its last entry is null. -/
theorem c8_duration_is_last_entry (ids : List (Option Int)) :
    (extract_game_duration ids = none ↔
      ids = [] ∨ ids.getLast? = some none) ∧
    (∀ v : Int, extract_game_duration ids = some v ↔
      ids.getLast? = some (some v)) := by
  unfold extract_game_duration
  rcases h : ids.getLast? with _ | x
  · rw [List.getLast?_eq_none_iff] at h
    simp [h]
  · rcases x with _ | v
    · have : ids ≠ [] := by
        intro he
        rw [he] at h
        simp at h
      simp [this]
    · have : ids ≠ [] := by
        intro he
        rw [he] at h
        simp at h
      simp [this]

/-- C8 witness: instantiating the amended characterization at the
one-element stream holding the value 5. -/
theorem c8_witness : extract_game_duration [some 5] = some 5 :=
  ((c8_duration_is_last_entry [some 5]).2 5).mpr (by decide)

/-- C9, counterexample: at rating 1436 the two elo_to_rank
implementations disagree even though the Grandmaster overlay does not
apply - peppi.rs puts 1436 in Silver 3 (band 1316..=1436) while web.rs
puts it in Gold 1 (its Silver 3 guard is rating < 1436). -/
theorem c9_counterexample :
    elo_to_rank_peppi 1436 = "Silver 3" ∧
    elo_to_rank_web 1436 i32Max i32Max = "Gold 1" ∧
    "Silver 3" ≠ "Gold 1" :=
  ⟨by decide, by decide, by decide⟩

set_option maxHeartbeats 1000000 in
/-- C9, amended: with both placements absent (the i32::MAX sentinel) the
two elo_to_rank implementations agree at every rating in 0..=2999 other
than the six boundary ratings 1436, 1547, 1548, 1654, 2074 and 2350
where the tables genuinely differ (outside 0..=2999 peppi.rs answers
"Grandmaster" through its catch-all arm where web.rs does not). -/
theorem c9_agreement_off_boundaries (r : Int) (hlo : 0 ≤ r)
    (hhi : r ≤ 2999) (hb1 : r ≠ 1436) (hb2 : r ≠ 1547) (hb3 : r ≠ 1548)
    (hb4 : r ≠ 1654) (hb5 : r ≠ 2074) (hb6 : r ≠ 2350) :
    elo_to_rank_peppi r = elo_to_rank_web r i32Max i32Max := by
  have hp : ¬((i32Max : Int) ≤ 100 ∨ (i32Max : Int) ≤ 300) := by decide
  rcases lt_or_le r 766 with h0 | h0
  · exact (peppi_eval_0 r hlo (by omega)).trans
      (web_eval_0 r i32Max i32Max h0).symm
  rcases lt_or_le r 914 with h1 | h1
  · exact (peppi_eval_1 r (by omega) (by omega)).trans
      (web_eval_1 r i32Max i32Max h0 h1).symm
  rcases lt_or_le r 1055 with h2 | h2
  · exact (peppi_eval_2 r (by omega) (by omega)).trans
      (web_eval_2 r i32Max i32Max h1 h2).symm
  rcases lt_or_le r 1189 with h3 | h3
  · exact (peppi_eval_3 r (by omega) (by omega)).trans
      (web_eval_3 r i32Max i32Max h2 h3).symm
  rcases lt_or_le r 1316 with h4 | h4
  · exact (peppi_eval_4 r (by omega) (by omega)).trans
      (web_eval_4 r i32Max i32Max h3 h4).symm
  rcases lt_or_le r 1436 with h5 | h5
  · exact (peppi_eval_5 r (by omega) (by omega)).trans
      (web_eval_5 r i32Max i32Max h4 h5).symm
  rcases lt_or_le r 1549 with h6 | h6
  · exact (peppi_eval_6 r (by omega) (by omega)).trans
      (web_eval_6 r i32Max i32Max h5 h6).symm
  rcases lt_or_le r 1654 with h7 | h7
  · exact (peppi_eval_7 r (by omega) (by omega)).trans
      (web_eval_7 r i32Max i32Max h6 h7).symm
  rcases lt_or_le r 1752 with h8 | h8
  · exact (peppi_eval_8 r (by omega) (by omega)).trans
      (web_eval_8 r i32Max i32Max h7 h8).symm
  rcases lt_or_le r 1843 with h9 | h9
  · exact (peppi_eval_9 r (by omega) (by omega)).trans
      (web_eval_9 r i32Max i32Max h8 h9).symm
  rcases lt_or_le r 1928 with h10 | h10
  · exact (peppi_eval_10 r (by omega) (by omega)).trans
      (web_eval_10 r i32Max i32Max h9 h10).symm
  rcases lt_or_le r 2004 with h11 | h11
  · exact (peppi_eval_11 r (by omega) (by omega)).trans
      (web_eval_11 r i32Max i32Max h10 h11).symm
  rcases lt_or_le r 2074 with h12 | h12
  · exact (peppi_eval_12 r (by omega) (by omega)).trans
      (web_eval_12 r i32Max i32Max h11 h12).symm
  rcases lt_or_le r 2137 with h13 | h13
  · exact (peppi_eval_13 r (by omega) (by omega)).trans
      (web_eval_13 r i32Max i32Max h12 h13).symm
  rcases lt_or_le r 2192 with h14 | h14
  · exact (peppi_eval_14 r (by omega) (by omega)).trans
      (web_eval_14 r i32Max i32Max h13 h14).symm
  rcases lt_or_le r 2275 with h15 | h15
  · exact (peppi_eval_15 r (by omega) (by omega)).trans
      (web_eval_m1 r i32Max i32Max h14 h15 hp).symm
  rcases lt_or_le r 2350 with h16 | h16
  · exact (peppi_eval_16 r (by omega) (by omega)).trans
      (web_eval_m2 r i32Max i32Max h15 h16 hp).symm
  exact (peppi_eval_17 r (by omega) (by omega)).trans
    (web_eval_m3 r i32Max i32Max h16 hp).symm

/-- C9 witness: the agreement theorem applied at rating 1000. -/
theorem c9_witness :
    elo_to_rank_peppi 1000 = elo_to_rank_web 1000 i32Max i32Max :=
  c9_agreement_off_boundaries 1000 (by decide) (by decide) (by decide)
    (by decide) (by decide) (by decide) (by decide) (by decide)

/-- C1, counterexample: scanning a directory holding two parseable
replays and one corrupt one succeeds with exactly the two parsed results
and the corrupt file absent, but no path is recorded anywhere - the
analyzer state has no bad-file store - and the corrupt path is still in
the candidate set that any subsequent scan of the same directory
considers, contradicting the claimed exclusion. -/
theorem c1_counterexample :
    [mkReplayInfo "A.slp" exParsedA,
     mkReplayInfo "C.slp" exParsedC].Perm (parseSuccesses exWalkCorrupt) ∧
    scanDirectory { replays := [], rank_cache := [] } exWalkCorrupt
        [mkReplayInfo "A.slp" exParsedA, mkReplayInfo "C.slp" exParsedC] =
      Except.ok
        { replays :=
            [mkReplayInfo "C.slp" exParsedC, mkReplayInfo "A.slp" exParsedA]
          rank_cache := [] } ∧
    "bad.slp" ∈ candidatePaths exWalkCorrupt ∧
    candidatePaths exWalkCorrupt = ["A.slp", "bad.slp", "C.slp"] :=
  ⟨by decide, by rfl, by decide, by decide⟩

/-- C1, amended: in every admissible execution (the collected pre-sort
list being some permutation of the parse successes, since par_bridge
makes its order nondeterministic) a scan returns exactly the sorted
collected successes, a corrupt candidate file (all of whose path
occurrences are corrupt) is absent from the results, yet its path
remains in the candidate set of every scan - the code keeps no bad-file
cache - and any re-scan of the same directory reproduces the same
results up to order, re-parsing the corrupt file. -/
theorem c1_scan_drops_corrupt_no_cache (s : ReplayAnalyzer) (w : DirWalk)
    (collected : List ReplayInfo) (s2 : ReplayAnalyzer) (e : FsEntry)
    (hperm : collected.Perm (parseSuccesses w))
    (hscan : scanDirectory s w collected = Except.ok s2)
    (he : e ∈ candidateEntries w) (hbad : e.parsed = none)
    (huniq : ∀ e2 ∈ candidateEntries w, e2.path = e.path →
      e2.parsed = none) :
    s2.replays = sortReplays collected ∧
    (∀ r ∈ s2.replays, r.file_path ≠ e.path) ∧
    e.path ∈ candidatePaths w ∧
    (∀ s3 s4 collected2, collected2.Perm (parseSuccesses w) →
      scanDirectory s3 w collected2 = Except.ok s4 →
      s4.replays.Perm s2.replays) := by
  unfold scanDirectory at hscan
  cases hscan
  refine ⟨rfl, ?_, ?_, ?_⟩
  · intro r hr
    have hr2 : r ∈ sortReplays collected := hr
    have hr3 : r ∈ parseSuccesses w :=
      hperm.mem_iff.mp ((List.mem_insertionSort replayLE).mp hr2)
    unfold parseSuccesses at hr3
    rw [List.mem_filterMap] at hr3
    obtain ⟨e2, he2, hmap⟩ := hr3
    intro hpath
    rcases hp : e2.parsed with _ | c
    · rw [hp] at hmap
      simp at hmap
    · rw [hp] at hmap
      have hmap2 : mkReplayInfo e2.path c = r := by
        simpa using hmap
      have hfp : r.file_path = e2.path := by
        rw [← hmap2]
        rfl
      have he2p : e2.path = e.path := by rw [← hfp, hpath]
      have hcontra := huniq e2 he2 he2p
      rw [hp] at hcontra
      exact Option.noConfusion hcontra
  · exact List.mem_map_of_mem (fun e2 => e2.path) he
  · intro s3 s4 collected2 hperm2 h34
    unfold scanDirectory at h34
    cases h34
    exact ((List.perm_insertionSort replayLE collected2).trans
      (hperm2.trans hperm.symm)).trans
      (List.perm_insertionSort replayLE collected).symm

/-- C1 witness: the amended theorem applied to the concrete walk with one
corrupt file among two parseable ones. -/
theorem c1_witness :
    "bad.slp" ∈ candidatePaths exWalkCorrupt ∧
    sortReplays (parseSuccesses exWalkCorrupt) =
      sortReplays (parseSuccesses exWalkCorrupt) := by
  have h := c1_scan_drops_corrupt_no_cache
    { replays := [], rank_cache := [] } exWalkCorrupt
    (parseSuccesses exWalkCorrupt)
    { replays := sortReplays (parseSuccesses exWalkCorrupt)
      rank_cache := [] }
    exBadEntry (List.Perm.refl _) rfl (by decide) rfl (by decide)
  exact ⟨h.2.2.1, rfl⟩

/-- C3, counterexample: par_bridge does not preserve iterator order, so
the execution collecting the two dateless files D1, D2 as [D2, D1] is
admissible (a permutation of the walk-ordered successes [D1, D2]); the
stable sort leaves the two mutually-equal dateless entries in collected
order, so that scan returns [D2, D1] - the reverse of their scan order -
refuting the claim that dateless entries keep their relative pre-sort
(scan) order after every scan. -/
theorem c3_counterexample :
    parseSuccesses exWalkTwoDateless =
      [mkReplayInfo "D1.slp" exParsedB, mkReplayInfo "D2.slp" exParsedB2] ∧
    [mkReplayInfo "D2.slp" exParsedB2,
     mkReplayInfo "D1.slp" exParsedB].Perm
      (parseSuccesses exWalkTwoDateless) ∧
    scanDirectory { replays := [], rank_cache := [] } exWalkTwoDateless
        [mkReplayInfo "D2.slp" exParsedB2, mkReplayInfo "D1.slp" exParsedB] =
      Except.ok
        { replays :=
            [mkReplayInfo "D2.slp" exParsedB2,
             mkReplayInfo "D1.slp" exParsedB]
          rank_cache := [] } ∧
    [mkReplayInfo "D2.slp" exParsedB2, mkReplayInfo "D1.slp" exParsedB] ≠
      [mkReplayInfo "D1.slp" exParsedB, mkReplayInfo "D2.slp" exParsedB2] :=
  ⟨by decide, by decide, by rfl, by decide⟩

/-- C3, amended: in every admissible execution the scanned replay list
is pairwise ordered - newer or equal dates first among dated entries,
and never a dated entry after a dateless one - it is a permutation of
the parse successes, and the dateless entries are exactly the dateless
collected entries in their collected order; that collected order is
nondeterministic (par_bridge does not preserve walk order), so no fixed
relative order of dateless entries is guaranteed.  The concrete scan of
A(date 100), B(no date), C(date 200) still returns exactly [C, A, B]
under every admissible collection order, because only one entry is
dateless and the two dates are distinct. -/
theorem c3_scan_ordering (s : ReplayAnalyzer) (w : DirWalk)
    (collected : List ReplayInfo) (s2 : ReplayAnalyzer)
    (hperm : collected.Perm (parseSuccesses w))
    (h : scanDirectory s w collected = Except.ok s2) :
    s2.replays.Pairwise (fun a b =>
      (∀ da db, a.date = some da → b.date = some db → db ≤ da) ∧
      (a.date = none → b.date = none)) ∧
    s2.replays.filter (fun r => r.date.isNone) =
      collected.filter (fun r => r.date.isNone) ∧
    s2.replays.Perm (parseSuccesses w) ∧
    (∀ collected2, collected2.Perm (parseSuccesses exWalkOrdering) →
      sortReplays collected2 =
        [mkReplayInfo "C.slp" exParsedC, mkReplayInfo "A.slp" exParsedA,
         mkReplayInfo "B.slp" exParsedB]) := by
  unfold scanDirectory at h
  cases h
  refine ⟨?_, ?_, ?_, ?_⟩
  · exact (sorted_sortReplays collected).imp
      (fun hab => replayLE_dates hab)
  · exact filter_dateless_sortReplays collected
  · exact (List.perm_insertionSort replayLE collected).trans hperm
  · intro collected2 hperm2
    have hps : parseSuccesses exWalkOrdering =
        [mkReplayInfo "A.slp" exParsedA, mkReplayInfo "B.slp" exParsedB,
         mkReplayInfo "C.slp" exParsedC] := rfl
    rw [hps] at hperm2
    have hlen := hperm2.length_eq
    rcases collected2 with _ | ⟨x, _ | ⟨y, _ | ⟨z, _ | ⟨w4, t⟩⟩⟩⟩
    · simp at hlen
    · simp at hlen
    · simp at hlen
    · have hx : x ∈ [mkReplayInfo "A.slp" exParsedA,
          mkReplayInfo "B.slp" exParsedB, mkReplayInfo "C.slp" exParsedC] :=
        hperm2.mem_iff.mp (by simp)
      have hy : y ∈ [mkReplayInfo "A.slp" exParsedA,
          mkReplayInfo "B.slp" exParsedB, mkReplayInfo "C.slp" exParsedC] :=
        hperm2.mem_iff.mp (by simp)
      have hz : z ∈ [mkReplayInfo "A.slp" exParsedA,
          mkReplayInfo "B.slp" exParsedB, mkReplayInfo "C.slp" exParsedC] :=
        hperm2.mem_iff.mp (by simp)
      simp only [List.mem_cons, List.not_mem_nil, or_false] at hx hy hz
      rcases hx with rfl | rfl | rfl <;> rcases hy with rfl | rfl | rfl <;>
        rcases hz with rfl | rfl | rfl <;>
        first
          | exact absurd hperm2 (by decide)
          | rfl
    · simp only [List.length_cons, List.length_nil] at hlen
      omega

/-- C3 witness: the amended ordering theorem applied to the concrete
A, B, C walk with the identity collection order, and its concrete
conjunct instantiated at that same order. -/
theorem c3_witness :
    (sortReplays (parseSuccesses exWalkOrdering)).Pairwise (fun a b =>
      (∀ da db, a.date = some da → b.date = some db → db ≤ da) ∧
      (a.date = none → b.date = none)) ∧
    sortReplays (parseSuccesses exWalkOrdering) =
      [mkReplayInfo "C.slp" exParsedC, mkReplayInfo "A.slp" exParsedA,
       mkReplayInfo "B.slp" exParsedB] := by
  have h := c3_scan_ordering { replays := [], rank_cache := [] }
    exWalkOrdering (parseSuccesses exWalkOrdering)
    { replays := sortReplays (parseSuccesses exWalkOrdering)
      rank_cache := [] } (List.Perm.refl _) rfl
  exact ⟨h.1, h.2.2.2 (parseSuccesses exWalkOrdering) (List.Perm.refl _)⟩

/-- C4, counterexample: scanning a nonexistent root directory - whose
walk yields a single error item - succeeds with an empty replay list
instead of returning the error the claim requires. -/
theorem c4_counterexample :
    ([] : List ReplayInfo).Perm
      (parseSuccesses [Except.error "No such file or directory"]) ∧
    scanDirectory { replays := [], rank_cache := [] }
        [Except.error "No such file or directory"] [] =
      Except.ok { replays := [], rank_cache := [] } :=
  ⟨by decide, by rfl⟩

/-- C4, amended: scan_directory never returns an error - per-file parse
failures, per-entry walk errors and a nonexistent root all still yield
success, there is no worker-pool construction in the code, and in every
admissible execution the resulting state carries the sorted collected
parse successes, a permutation of the walk's parse successes (the empty
list when nothing parsed). -/
theorem c4_scan_never_fails :
    ∀ (s : ReplayAnalyzer) (w : DirWalk) (collected : List ReplayInfo),
      collected.Perm (parseSuccesses w) →
      ∃ s2, scanDirectory s w collected = Except.ok s2 ∧
        s2.replays = sortReplays collected ∧
        s2.replays.Perm (parseSuccesses w) := by
  intro s w collected hperm
  exact ⟨_, rfl, rfl,
    (List.perm_insertionSort replayLE collected).trans hperm⟩

/-- C4 witness: the no-failure theorem applied to the walk of a
nonexistent root, whose only admissible collected list is empty. -/
theorem c4_witness :
    ∃ s2, scanDirectory { replays := [], rank_cache := [] }
        [Except.error "No such file or directory"] [] = Except.ok s2 ∧
      s2.replays = sortReplays [] ∧
      s2.replays.Perm
        (parseSuccesses [Except.error "No such file or directory"]) :=
  c4_scan_never_fails { replays := [], rank_cache := [] }
    [Except.error "No such file or directory"] [] (by decide)

/-- C5: get_stats_for_player counts as wins exactly the replays
satisfying winFor and as losses exactly those satisfying lossFor, where a
replay with result Unknown never counts, a replay naming the tag as
neither player never counts, and the concrete three-replay example in
which X wins twice as player1 and loses once as player2 yields (2, 1). -/
theorem c5_stats_characterization :
    (∀ (l : List ReplayInfo) (c : List (String × String)) (tag : String),
        getStatsForPlayer { replays := l, rank_cache := c } tag =
          (l.countP (winFor tag), l.countP (lossFor tag))) ∧
    (∀ (tag : String) (r : ReplayInfo), r.result = GameResult.Unknown →
        winFor tag r = false ∧ lossFor tag r = false) ∧
    (∀ (tag : String) (r : ReplayInfo),
        r.player1.name ≠ tag → r.player2.name ≠ tag →
        winFor tag r = false ∧ lossFor tag r = false) ∧
    getStatsForPlayer exStatsAnalyzer "X" = (2, 1) := by
  refine ⟨?_, ?_, ?_, by decide⟩
  · intro l c tag
    unfold getStatsForPlayer
    rw [statStep_foldl tag l (0, 0)]
    simp
  · intro tag r hres
    by_cases h1 : r.player1.name = tag <;>
      by_cases h2 : r.player2.name = tag <;>
      simp [winFor, lossFor, h1, h2, hres]
  · intro tag r h1 h2
    simp [winFor, lossFor, h1, h2]

/-- C5 witness: the characterization applied to an Unknown-result replay
and to the concrete example analyzer. -/
theorem c5_witness :
    winFor "X" exUnknownReplay = false ∧
    lossFor "X" exUnknownReplay = false :=
  c5_stats_characterization.2.1 "X" exUnknownReplay rfl

/-- C6: when the rank cache already holds the opponent derived from the
most recent replay, the analyzer-level lookup issues no network request,
returns the same unchanged state under any two network oracles, and the
app-level lookup also issues no request while applying the cached value
to the most recent replay. -/
theorem c6_cache_hit_no_network (s : ReplayAnalyzer) (tag : String)
    (mr : ReplayInfo) (rest : List ReplayInfo)
    (net net2 : String → Except String String) (e : EppiApp)
    (rank : String) (hrep : s.replays = mr :: rest)
    (hget : cacheGet s.rank_cache (opponentOf mr tag) = some rank)
    (hcc : e.connect_code = tag) (hne : tag ≠ "")
    (hf : e.is_fetching_rank = false) (ha : e.analyzer = s) :
    lookupOpponentRank s tag net = (s, []) ∧
    lookupOpponentRank s tag net = lookupOpponentRank s tag net2 ∧
    (appLookupOpponentRank e).2 = [] ∧
    (appLookupOpponentRank e).1.analyzer.replays =
      { mr with opponent_rank := some rank } :: rest := by
  have hcon := cacheContains_of_get hget
  have hone : lookupOpponentRank s tag net = (s, []) := by
    simp [lookupOpponentRank, hrep, hcon]
  have htwo : lookupOpponentRank s tag net2 = (s, []) := by
    simp [lookupOpponentRank, hrep, hcon]
  refine ⟨hone, hone.trans htwo.symm, ?_, ?_⟩ <;>
    simp [appLookupOpponentRank, hcc, hne, hf, ha, hrep, hget]

/-- C6 witness: the cache-hit theorem applied to the concrete analyzer
whose cache already binds OPP#2, under a failing and a succeeding
network oracle. -/
theorem c6_witness :
    lookupOpponentRank exCachedAnalyzer "ME#1" exNetFail =
      (exCachedAnalyzer, []) ∧
    lookupOpponentRank exCachedAnalyzer "ME#1" exNetFail =
      lookupOpponentRank exCachedAnalyzer "ME#1" exNetOk ∧
    (appLookupOpponentRank exCachedApp).2 = [] ∧
    (appLookupOpponentRank exCachedApp).1.analyzer.replays =
      { exRecentReplay with opponent_rank := some "Gold 2" } :: [] :=
  c6_cache_hit_no_network exCachedAnalyzer "ME#1" exRecentReplay []
    exNetFail exNetOk exCachedApp "Gold 2" rfl (by decide) rfl
    (by decide) rfl rfl

/-- C7: a failed rank fetch stores the "Unknown" sentinel for the
opponent tag after issuing exactly one request, a second analyzer-level
lookup in the same session issues no further request and leaves the
state unchanged, and the app-level result drain stores the same sentinel
on a failed fetch. -/
theorem c7_negative_caching (s : ReplayAnalyzer) (tag : String)
    (mr : ReplayInfo) (rest : List ReplayInfo) (msg : String)
    (net : String → Except String String)
    (hrep : s.replays = mr :: rest)
    (hmiss : cacheContains s.rank_cache (opponentOf mr tag) = false)
    (hunk : opponentOf mr tag ≠ "Unknown")
    (hnet : net (opponentOf mr tag) = Except.error msg) :
    cacheGet (lookupOpponentRank s tag net).1.rank_cache
      (opponentOf mr tag) = some "Unknown" ∧
    (lookupOpponentRank s tag net).2 = [opponentOf mr tag] ∧
    (∀ net2, lookupOpponentRank (lookupOpponentRank s tag net).1 tag net2 =
      ((lookupOpponentRank s tag net).1, [])) ∧
    (∀ (e : EppiApp) (tag2 : String),
      cacheGet (appApplyRankResult e tag2
          (Except.error msg)).analyzer.rank_cache tag2 = some "Unknown") := by
  have hfirst : lookupOpponentRank s tag net =
      ({ s with rank_cache :=
          cacheInsert s.rank_cache (opponentOf mr tag) "Unknown" },
       [opponentOf mr tag]) := by
    simp [lookupOpponentRank, hrep, hmiss, hunk, hnet]
  refine ⟨?_, ?_, ?_, ?_⟩
  · rw [hfirst]
    exact cacheGet_insert_self s.rank_cache (opponentOf mr tag) "Unknown"
  · rw [hfirst]
  · intro net2
    rw [hfirst]
    simp [lookupOpponentRank, hrep,
      cacheContains_insert_self s.rank_cache (opponentOf mr tag) "Unknown"]
  · intro e tag2
    simp [appApplyRankResult, cacheGet_insert_self]

/-- C7 witness: the negative-caching theorem applied to the concrete
uncached analyzer under the failing network oracle, with the second
lookup run under the succeeding oracle. -/
theorem c7_witness :
    cacheGet (lookupOpponentRank exUncachedAnalyzer "ME#1"
        exNetFail).1.rank_cache (opponentOf exRecentReplay "ME#1") =
      some "Unknown" ∧
    (lookupOpponentRank exUncachedAnalyzer "ME#1" exNetFail).2 =
      [opponentOf exRecentReplay "ME#1"] ∧
    lookupOpponentRank
        (lookupOpponentRank exUncachedAnalyzer "ME#1" exNetFail).1 "ME#1"
        exNetOk =
      ((lookupOpponentRank exUncachedAnalyzer "ME#1" exNetFail).1, []) ∧
    cacheGet (appApplyRankResult exCachedApp "OPP#9"
        (Except.error "connection refused")).analyzer.rank_cache "OPP#9" =
      some "Unknown" := by
  have h := c7_negative_caching exUncachedAnalyzer "ME#1" exRecentReplay
    [] "connection refused" exNetFail rfl (by decide) (by decide) rfl
  exact ⟨h.1, h.2.1, h.2.2.1 exNetOk, h.2.2.2 exCachedApp "OPP#9"⟩

/-- C10: a scan only replaces the replay list - whatever order the
parallel stage delivered the results in, the rank cache of the
resulting analyzer state is exactly the one scanned with, so every rank
cached before a re-scan is still cached after it. -/
theorem c10_scan_preserves_rank_cache (s : ReplayAnalyzer) (w : DirWalk)
    (collected : List ReplayInfo) (s2 : ReplayAnalyzer)
    (h : scanDirectory s w collected = Except.ok s2) :
    s2.rank_cache = s.rank_cache ∧
    ∀ tag rank, cacheGet s.rank_cache tag = some rank →
      cacheGet s2.rank_cache tag = some rank := by
  unfold scanDirectory at h
  cases h
  exact ⟨rfl, fun tag rank hr => hr⟩

/-- C10 witness: the frame theorem applied to a scan of the ordering
walk starting from the analyzer whose cache binds OPP#2. -/
theorem c10_witness :
    ({ exCachedAnalyzer with
        replays := sortReplays (parseSuccesses exWalkOrdering) } :
      ReplayAnalyzer).rank_cache = exCachedAnalyzer.rank_cache :=
  (c10_scan_preserves_rank_cache exCachedAnalyzer exWalkOrdering
    (parseSuccesses exWalkOrdering)
    { exCachedAnalyzer with
      replays := sortReplays (parseSuccesses exWalkOrdering) } rfl).1

end Eppi
